import Mathlib

/-!
# Brussels Food Map — verification of the scoring and reranking engine

Shallow embedding of the scoring/reranking core of the `brussels-food-map`
repository (files `src/brussels_reranking.py`, `src/brussels_context.py`,
`src/app.py`) together with proofs about the embedded functions.

Modelling conventions:
* Python floats are modelled exactly: pure arithmetic is carried out in `ℚ`
  wherever the source only adds, multiplies, compares and divides rationals;
  code that calls `math.sqrt`, `math.exp` or trigonometric functions is
  modelled over `ℝ` with `Real.sqrt`, `Real.exp`, `Real.sin`, `Real.cos`,
  `Real.arctan`.
* Python truthiness (`if rating`, `if not name`, `if review_count and ...`)
  is modelled explicitly: a number is truthy iff it is nonzero, a string or
  list iff it is nonempty, an optional value iff it is present (and truthy).
* `re.search` with the literal patterns used by the source is modelled by
  structural matchers over `List Char` (plain substring, word-boundary
  substring, anchored match), one per pattern shape actually occurring.
* Python dicts that the source iterates in declaration order are modelled as
  association lists in the same order (CPython dicts preserve insertion
  order, which the source relies on).
-/

/-! ## Character and string primitives -/

/-- The apostrophe character (several table entries of the source contain it). -/
def apoChar : Char := Char.ofNat 39

/-- A string made of a single apostrophe. -/
def apoStr : String := String.singleton apoChar

/-- Join two strings with an apostrophe between them: `apS "o" "tacos"` is the
pattern written `o'tacos` in the Python source. -/
def apS (a b : String) : String := a ++ apoStr ++ b

/-- ASCII lowercasing, modelling Python `str.lower()` on the names that occur
in this code base (accented letters are left unchanged). -/
def lowerList (s : List Char) : List Char := s.map Char.toLower

/-- Lowercase a whole string (list-of-characters semantics). -/
def strLower (s : String) : String := String.mk (lowerList s.toList)

/-- Does `pat` occur at the head of `s`? (list-of-characters matcher). -/
def prefixMatch : List Char → List Char → Bool
  | [], _ => true
  | _ :: _, [] => false
  | p :: ps, c :: cs => p == c && prefixMatch ps cs

/-- Does `pat` occur anywhere inside `s`? Models `re.search` for a pattern
that is a plain literal (no metacharacters), and Python's `pat in s`. -/
def subMatch (pat : List Char) : List Char → Bool
  | [] => prefixMatch pat []
  | c :: cs => prefixMatch pat (c :: cs) || subMatch pat cs

/-- `pat` matches at the head of `s` and the position right after the match is
a boundary according to `bnd` (end of string always qualifies). -/
def headBnd (bnd : Char → Bool) : List Char → List Char → Bool
  | [], [] => true
  | [], c :: _ => bnd c
  | _ :: _, [] => false
  | p :: ps, c :: cs => p == c && headBnd bnd ps cs

/-- Is the character before the current position a boundary (`none` = start of
string, which always qualifies)? -/
def prevBnd (bnd : Char → Bool) : Option Char → Bool
  | none => true
  | some c => bnd c

/-- Scan `s` for an occurrence of `pat` delimited on both sides by `bnd`
characters (or the ends of the string); `prev` is the character preceding the
current position. -/
def scanBnd (bnd : Char → Bool) (pat : List Char) : Option Char → List Char → Bool
  | prev, [] => prevBnd bnd prev && headBnd bnd pat []
  | prev, c :: cs =>
      (prevBnd bnd prev && headBnd bnd pat (c :: cs)) || scanBnd bnd pat (some c) cs

/-- Python regex word characters (`\w`), restricted to the ASCII names this
code base matches against. -/
def isWordChar (c : Char) : Bool := c.isAlphanum || c == Char.ofNat 95

/-- `re.search(r"\bpat\b", s)` for a literal `pat`. -/
def wordMatch (pat : String) (s : List Char) : Bool :=
  scanBnd (fun c => !isWordChar c) pat.toList none s

/-- Substring search, on whole strings. -/
def strContains (s pat : String) : Bool := subMatch pat.toList s.toList

/-! ## Chain detection (`brussels_context.py`, `CHAIN_PATTERNS` /
`is_chain_restaurant`, lines 734–797) -/

/-- The shapes of regular expressions occurring in the name-pattern tables of
`brussels_context.py`: a plain literal searched anywhere, a `\b`-delimited
literal, a fully anchored literal (`^pat$`), and an anchored prefix with a
trailing word boundary (`^pat\b`). -/
inductive NamePat where
  | plain (s : String)
  | bounded (s : String)
  | anchored (s : String)
  | anchoredPre (s : String)
deriving Repr, DecidableEq

/-- `re.search` of one pattern against an (already lowercased) name. -/
def matchPat (name : List Char) : NamePat → Bool
  | .plain s => subMatch s.toList name
  | .bounded s => wordMatch s name
  | .anchored s => name == s.toList
  | .anchoredPre s => headBnd (fun c => !isWordChar c) s.toList name

/-- `CHAIN_PATTERNS` of `brussels_context.py` (lines 734–746), in source
order.  All entries are literal substring patterns except `\bfritland\b`. -/
def CHAIN_PATTERNS : List NamePat :=
  [.plain "mcdonald", .plain "burger king", .plain "quick", .plain "kfc",
   .plain "subway", .plain "domino",
   .plain "pizza hut", .plain "starbucks", .plain "panos", .plain "exki",
   .plain "le pain quotidien",
   .plain "paul", .plain (apS "class" "croute"), .plain "pizza express",
   .plain "vapiano", .plain "wagamama",
   .plain "nando", .plain "five guys", .plain "pitaya", .plain "sushi shop",
   .plain "planet sushi",
   .plain "bavet", .plain "balls & glory", .plain "ellis gourmet",
   .plain "manhattn",
   .plain "delitraiteur", .plain (apS "o" "tacos"),
   .bounded "fritland",
   .plain "oakberry"]

/-- `is_chain_restaurant` (`brussels_context.py`, lines 783–797): a name is a
chain iff it is nonempty and some pattern of `CHAIN_PATTERNS` matches its
lowercased form. -/
def is_chain_restaurant (name : String) : Bool :=
  if name = "" then false
  else CHAIN_PATTERNS.any (matchPat (lowerList name.toList))

/-! ## Non-restaurant shop detection (`brussels_context.py`, lines 750–780) -/

/-- Drop leading whitespace characters (`\s*` munching). -/
def dropWs : List Char → List Char
  | [] => []
  | c :: cs => if c.isWhitespace then dropWs cs else c :: cs

/-- Python `str.strip()`: remove whitespace at both ends. -/
def trimList (s : List Char) : List Char := ((dropWs s).reverse |> dropWs).reverse

/-- Head match for the one genuinely non-literal shop pattern
`\bspek\s*[&n]\s*boonen\b`: at the current position, `spek`, optional
whitespace, `&` or `n`, optional whitespace, `boonen`, then a word boundary. -/
def spekHead (s : List Char) : Bool :=
  if prefixMatch "spek".toList s then
    match dropWs (s.drop 4) with
    | [] => false
    | c :: cs =>
        (c == '&' || c == 'n') &&
        headBnd (fun ch => !isWordChar ch) "boonen".toList (dropWs cs)
  else false

/-- Scan for `\bspek\s*[&n]\s*boonen\b` anywhere in the name. -/
def spekScan : Option Char → List Char → Bool
  | _, [] => false
  | prev, c :: cs =>
      (prevBnd (fun ch => !isWordChar ch) prev && spekHead (c :: cs)) ||
      spekScan (some c) cs

/-- `NON_RESTAURANT_SHOPS` of `brussels_context.py` (lines 750–762) as pattern
shapes; the butcher-shop regex is carried by the dedicated `spekScan`. -/
def NON_RESTAURANT_SHOPS : List NamePat :=
  [.bounded "corné", .bounded "corne dynastie", .bounded "neuhaus",
   .bounded "godiva", .bounded "leonidas",
   .bounded "pierre marcolini", .bounded "marcolini", .bounded "galler",
   .bounded "wittamer",
   .bounded "mary chocolatier", .bounded "planète chocolat",
   .bounded "frederic blondeel",
   .bounded "chocolatier", .bounded "chocolate shop", .bounded "pralines",
   .anchored "shell", .anchoredPre "totalenergies", .anchored "esso",
   .anchoredPre "lukoil", .anchored "texaco",
   .anchored "q8", .anchored "gulf", .bounded "tankstation"]

/-- `is_non_restaurant_shop` (`brussels_context.py`, lines 772–780). -/
def is_non_restaurant_shop (name : String) : Bool :=
  if name = "" then false
  else
    let nl := lowerList name.toList
    NON_RESTAURANT_SHOPS.any (matchPat nl) || spekScan none nl

/-! ## Weight configuration (`brussels_reranking.py`, lines 117–140) -/

/-- Positive component weights (`POSITIVE_WEIGHTS`, lines 117–129), one field
per key of the Python dict, in declaration order. -/
structure PositiveWeights where
  base_quality : ℚ
  ml_residual : ℚ
  scarcity : ℚ
  independent : ℚ
  guide : ℚ
  diaspora : ℚ
  reddit : ℚ
  bruxellois : ℚ
  family_name : ℚ
  specificity : ℚ
  cuisine_rarity : ℚ
deriving Repr, DecidableEq

/-- The weight table as declared in the source. -/
def POSITIVE_WEIGHTS : PositiveWeights :=
  { base_quality := 0.32
    ml_residual := 0.18
    scarcity := 0.12
    independent := 0.10
    guide := 0.08
    diaspora := 0.07
    reddit := 0.05
    bruxellois := 0.04
    family_name := 0.02
    specificity := 0.01
    cuisine_rarity := 0.01 }

/-- Sum of the eleven positive weights, in dict order. -/
def positiveWeightSum (w : PositiveWeights) : ℚ :=
  w.base_quality + w.ml_residual + w.scarcity + w.independent + w.guide +
    w.diaspora + w.reddit + w.bruxellois + w.family_name + w.specificity +
    w.cuisine_rarity

/-- Penalty caps (`PENALTY_CAPS`, lines 133–140). -/
structure PenaltyCaps where
  tourist_trap : ℚ
  chain : ℚ
  low_review : ℚ
  eu_bubble : ℚ
  price_quality : ℚ
  shop : ℚ
deriving Repr, DecidableEq

/-- The penalty-cap table as declared in the source. -/
def PENALTY_CAPS : PenaltyCaps :=
  { tourist_trap := -0.15
    chain := -0.10
    low_review := -0.15
    eu_bubble := -0.03
    price_quality := -0.10
    shop := -0.80 }

/-! ## Small lookup tables -/

/-- First-match association-list lookup, modelling Python `dict.get` for the
dicts this code base declares literally (keys are unique in all of them). -/
def alookup {α : Type} (l : List (String × α)) (k : String) : Option α :=
  (l.find? (fun p => p.1 == k)).map (·.2)

/-- `RARE_CUISINES_BRUSSELS` (`brussels_reranking.py`, lines 497–519). -/
def RARE_CUISINES_BRUSSELS : List (String × ℚ) :=
  [("Georgian", 1.0), ("Peruvian", 0.9), ("Filipino", 0.9), ("Malaysian", 0.9),
   ("Sri Lankan", 0.9), ("Scandinavian", 0.8), ("Venezuelan", 0.8),
   ("Argentinian", 0.8), ("Korean", 0.7), ("Ethiopian", 0.7),
   ("Indonesian", 0.7), ("Tibetan", 0.9), ("Nepalese", 0.8), ("Burmese", 0.9),
   ("Caribbean", 0.8), ("Jamaican", 0.9), ("Cuban", 0.9), ("Hawaiian", 1.0),
   ("Taiwanese", 0.8), ("Szechuan", 0.7), ("Cantonese", 0.7)]

/-- `CUISINE_SPECIFICITY` (`brussels_context.py`, lines 637–720). -/
def CUISINE_SPECIFICITY : List (String × ℚ) :=
  [("Sichuan", 1.0), ("Szechuan", 1.0), ("Cantonese", 0.9), ("Hunan", 1.0),
   ("Taiwanese", 0.9), ("Shanghainese", 1.0), ("Dim Sum", 0.8),
   ("Pekinese", 0.9), ("Hakka", 1.0),
   ("Ramen", 0.8), ("Izakaya", 0.9), ("Kaiseki", 1.0), ("Omakase", 1.0),
   ("Yakitori", 0.9), ("Tonkatsu", 0.9), ("Okonomiyaki", 1.0),
   ("Korean BBQ", 0.8), ("Hansik", 1.0),
   ("South Indian", 0.9), ("Punjabi", 0.9), ("Gujarati", 1.0),
   ("Bengali", 1.0), ("Kerala", 1.0), ("Chettinad", 1.0), ("Hyderabadi", 0.9),
   ("Neapolitan", 0.9), ("Sicilian", 1.0), ("Tuscan", 0.9), ("Roman", 0.9),
   ("Venetian", 1.0), ("Sardinian", 1.0), ("Piedmontese", 1.0),
   ("Emilian", 1.0),
   ("Basque", 1.0), ("Catalan", 0.9), ("Galician", 1.0), ("Andalusian", 0.9),
   ("Lyonnaise", 0.9), ("Provençal", 0.9), ("Alsatian", 0.9), ("Breton", 0.9),
   ("Burgundian", 1.0), ("Savoyard", 0.9),
   ("Oaxacan", 1.0), ("Yucatecan", 1.0), ("Jalisciense", 1.0),
   ("Levantine", 0.8), ("Palestinian", 1.0), ("Yemeni", 1.0), ("Kurdish", 1.0),
   ("Ethiopian", 0.8), ("Eritrean", 0.9), ("Senegalese", 1.0),
   ("Ivorian", 1.0), ("Cameroonian", 1.0), ("Ghanaian", 1.0),
   ("Nigerian", 0.9),
   ("Chinese", 0), ("Japanese", 0), ("Italian", 0), ("French", 0),
   ("Indian", 0), ("Thai", 0), ("Vietnamese", 0), ("Mexican", 0),
   ("American", 0), ("Mediterranean", 0), ("Asian", 0), ("European", 0),
   ("International", 0), ("Fusion", 0)]

/-- `get_cuisine_specificity_bonus` (`brussels_context.py`, lines 723–730). -/
def get_cuisine_specificity_bonus (cuisine : String) : ℚ :=
  if cuisine = "" then 0 else (alookup CUISINE_SPECIFICITY cuisine).getD 0

/-! ## Guide recognition (`brussels_context.py`, lines 799–1187) -/

/-- `MICHELIN_STARS` (lines 801–850): pattern → star count, in declaration
order ("la paix" is handled specially by the lookup function, as in the
source). -/
def MICHELIN_STARS : List (String × ℕ) :=
  [("bon bon", 2), ("comme chez soi", 2), (apS "l" "air du temps", 2),
   ("air du temps", 2), ("bozar restaurant", 2), ("karen torosyan", 2),
   ("sanzaru", 1), ("san ", 1), ("la villa emily", 1), ("villa emily", 1),
   ("kwint", 1), ("toshiro", 1), ("la villa in the sky", 1),
   ("villa in the sky", 1), ("rouge tomate", 1), ("kamo", 1),
   ("nuance by nutri", 1), ("nuance nutri", 1), ("sea grill", 1),
   (apS "l" "écrin", 1), ("ecrin", 1), ("aux armes de bruxelles", 1),
   ("orphyse chaussette", 1), ("humphrey", 1), ("alexandre", 1),
   ("le chalet de la forêt", 1), ("chalet de la forêt", 1), ("roberto", 1),
   ("lola", 1), ("san degeimbre", 1), (apS "l" "atelier de bossimé", 1),
   ("atelier de bossime", 1),
   ("barge", 1), ("da mimmo", 1), ("eliane", 1), ("humus x hortense", 1),
   ("humus hortense", 1), ("le pigeon noir", 1), ("pigeon noir", 1),
   ("menssa", 1), ("senzanome", 1)]

/-- `BIB_GOURMAND` (lines 854–920), in declaration order. -/
def BIB_GOURMAND : List String :=
  ["jb", "jb sushi", "selecto", "le selecto", "strofilia", "kline",
   "les filles", "tero", "rouge tomate", "humphrey", "wine bar des marolles",
   "le wine bar des marolles", "barge", "crab club", "humus x hortense",
   "humus hortense", "la bonne chère", "bonne chere",
   "faubourg saint-antoine", "faubourg saint antoine", "le rabassier",
   "rabassier",
   "yoka tomo", "yokatomo", "lune siamoise", "car bon", "french kiss",
   "villa singha", "de maurice à olivier", "maurice à olivier", "babam",
   "au repos de la montagne", "repos de la montagne", apS "maza" "j", "mazaj",
   "la branche " ++ apS "d" "olivier", "branche " ++ apS "d" "olivier",
   "appel thaï", "appel thai", "faraya", "station 3", "monsieur v",
   "ferment", "furbetto",
   "anju", "la charcuterie", apS "l" "épicerie nomad", "epicerie nomad",
   "le tournant", "tournant", "le variétés", "variétés",
   "les potes en toque", "potes en toque", "nénu", "nenu",
   "osteria bolognese", "saint boniface", "st. kilda", "st kilda"]

/-- `GAULT_MILLAU` (lines 926–1133), in declaration order. -/
def GAULT_MILLAU : List String :=
  ["bozar restaurant", "karen torosyan", "comme chez soi",
   "chalet de la forêt", "le chalet de la forêt",
   "villa in the sky", "eliane",
   "humus x hortense", "humus hortense", "kamo", "senzanome",
   "barge", "palais royal by david martin", "chaga", "da mimmo",
   "nonbe daigaku", "stirwen", "le stirwen",
   "quartz", "entropy", "la bonne chère", "bonne chere", "le passage",
   "amen", "aster", "ciao", "ivresse", "jayu",
   apS "l" "ecailler du palais", "ecailler du palais",
   "la belle maraîchère", "belle maraichere", "la buvette",
   "la truffe noire", "truffe noire", "le monde est petit", "monde est petit",
   "le pigeon noir", "pigeon noir", "racines", "samouraï", "samourai",
   "anju", "babam", "beaucoup belge", "beaucoup fish", "bocconi",
   "bogart-foodies corner", "bogart foodies", "bottega vannini", "brugmann",
   "brut", "car bon", "certo", "charlu", "chou", "cinq", "colonel fort jaco",
   "colonel louise", "dolce amaro", "fico", "flamme", "frasca",
   "friture rené", "friture rene", "gramm", "gus", "henri", "hispania",
   "il passatempo", "passatempo", "ioda", "jaco", "kartouche", "kline",
   "klok", "la branche " ++ apS "d" "olivier", "branche " ++ apS "d" "olivier",
   "la table de mus", "table de mus", "le 203", "le corbier", "corbier",
   "le coq en pâte", "coq en pate", "le fringant", "fringant",
   "le petit bon bon", "petit bon bon", "le rossini", "rossini",
   "le tournant", "tournant", "le variétés", "varietes",
   "les brigittines", "brigittines", "les petits bouchons",
   "petits bouchons", "wine bar des marolles", "lola",
   "maison du luxembourg", "maru", "miranda", "nénu", "nenu", "nightshop",
   "nyyó", "nyyo", "odette en ville", "old boy", "origine", "pénar", "penar",
   "ricciocapriccio", "sanzaru", "savage", "selecto", "strofilia",
   "the avenue", "toucan sur mer", "yamayu santatsu",
   "65 degrés", "65 degres", "al piccolo mondo", "piccolo mondo", "asado",
   "au repos de la montagne", "repos de la montagne", "au savoy", "savoy",
   "belga queen", "brasserie de la patinoire", "café maris", "cafe maris",
   "canterbury", "casa due", "chez luma", "coincoin", "correspondance",
   "crush", apS "de l" "ogenblik", "ogenblik", "genco", "groseille",
   "hadrien", "kolya", "la pierre bleue", "pierre bleue",
   "le buone maniere", "buone maniere", "le saint boniface",
   "saint boniface", "les brasseries georges", "brasseries georges",
   "les brassins", "brassins", apS "lily" "s", "lilys",
   apS "l" "orchidée blanche", "orchidee blanche", "lune siamoise", "mome",
   "osteria bolognese", "osteria romana", "ottanta", "philema", "ploegmans",
   "rallye des autos", "soif de faim", "toucan brasserie", "uma",
   "sea grill", "san daniele", "la quincaillerie", "humphrey",
   apS "brinz" "l", "le clan des belges", "fin de siècle", "fin de siecle",
   "nuetnigenough", "nüetnigenough", "in " ++ apoStr ++ "t spinnekopke",
   "spinnekopke", "la roue " ++ apS "d" "or", "roue " ++ apS "d" "or",
   apS "viva m" "boma", "wine bar sablon", "mobi", "fernand obb"]

/-- `_matches_pattern` (`brussels_context.py`, lines 1138–1144): the pattern
must occur delimited by non-letters (`[^a-z]`) or the ends of the string. -/
def matchesPatternB (name_lower : List Char) (pat : String) : Bool :=
  scanBnd (fun c => !('a' ≤ c && c ≤ 'z')) pat.toList none name_lower

/-- `has_michelin_recognition` (lines 1147–1160). -/
def has_michelin_recognition (name : String) : ℕ :=
  if name = "" then 0
  else
    let nl := lowerList name.toList
    if nl = "la paix".toList then 2
    else
      match MICHELIN_STARS.find? (fun p => matchesPatternB nl p.1) with
      | some p => p.2
      | none => 0

/-- `has_gault_millau` (lines 1163–1176). -/
def has_gault_millau (name : String) : Bool :=
  if name = "" then false
  else
    let nl := lowerList name.toList
    if nl = "la paix".toList then true
    else GAULT_MILLAU.any (fun p => matchesPatternB nl p)

/-- `has_bib_gourmand` (lines 1179–1187). -/
def has_bib_gourmand (name : String) : Bool :=
  if name = "" then false
  else BIB_GOURMAND.any (fun p => matchesPatternB (lowerList name.toList) p)

/-- `_calculate_guide_bonus` (`brussels_reranking.py`, lines 1148–1171):
highest applicable guide bonus only, plus the individual flags. -/
def guideBonus (name : String) : ℚ × ℕ × Bool × Bool :=
  let michelin_stars := has_michelin_recognition name
  let is_bib_gourmand := has_bib_gourmand name
  let is_gault_millau := has_gault_millau name
  let bonus : ℚ :=
    if 2 ≤ michelin_stars then 0.08
    else if michelin_stars = 1 then 0.06
    else if is_bib_gourmand then 0.04
    else if is_gault_millau then 0.03
    else 0
  (bonus, michelin_stars, is_bib_gourmand, is_gault_millau)

/-! ## Bruxellois institutions and friteries
(`brussels_context.py` lines 504–552, `brussels_reranking.py` lines 384–435) -/

/-- `FRITERIE_AUTHENTICITY` (`brussels_context.py`, lines 507–520). -/
def FRITERIE_AUTHENTICITY : List (String × ℚ) :=
  [("Jette", 1.0), ("Evere", 0.95), ("Berchem-Sainte-Agathe", 0.95),
   ("Anderlecht", 0.9), ("Forest", 0.9), ("Schaerbeek", 0.85),
   ("Ganshoren", 0.85), ("Molenbeek-Saint-Jean", 0.8), ("Koekelberg", 0.8),
   ("Saint-Gilles", 0.6), ("Ixelles", 0.5), ("Bruxelles", 0.3)]

/-- `BRUXELLOIS_INSTITUTIONS` (`brussels_context.py`, lines 525–552). -/
def BRUXELLOIS_INSTITUTIONS : List (String × ℚ) :=
  [("potverdoemmeke", 1.0), ("potes en toque", 1.0), ("friture rene", 1.0),
   ("friture rené", 1.0), ("petits bouchons", 1.0), ("zinneke", 1.0),
   ("fernand obb", 1.0), (apS "porteuse d" "eau", 1.0), ("volle gas", 1.0),
   ("fin de siecle", 0.9), ("fin de siècle", 0.9), ("brigittines", 0.9),
   ("maison antoine", 0.9), ("noordzee", 0.9), ("mer du nord", 0.9),
   ("spinnekopke", 0.9), ("vismet", 0.9), ("kelderke", 0.9),
   ("taverne du passage", 0.85), ("stekerlapatte", 0.9)]

/-- `is_friterie` (`brussels_reranking.py`, lines 384–393). -/
def is_friterie (name : String) : Bool :=
  if name = "" then false
  else
    let nl := lowerList name.toList
    ["frit", "frituur", "friture", "fritkot", "friterie"].any
      (fun k => subMatch k.toList nl)

/-- Accent folding for the Latin accented letters occurring in this code
base's tables, modelling `unicodedata.normalize('NFD', ·)` followed by
removal of combining marks (`normalize_name_for_matching`,
`brussels_reranking.py` lines 396–408). -/
def accentFold (c : Char) : Char :=
  if c ∈ ['à', 'á', 'â', 'ä'] then 'a'
  else if c ∈ ['è', 'é', 'ê', 'ë'] then 'e'
  else if c ∈ ['ì', 'í', 'î', 'ï'] then 'i'
  else if c ∈ ['ò', 'ó', 'ô', 'ö'] then 'o'
  else if c ∈ ['ù', 'ú', 'û', 'ü'] then 'u'
  else if c = 'ç' then 'c'
  else if c = 'ñ' then 'n'
  else if c = 'ÿ' then 'y'
  else c

/-- `normalize_name_for_matching` (`brussels_reranking.py`, lines 396–408):
strip accents, lowercase, strip whitespace. -/
def normalize_name_for_matching (name : String) : List Char :=
  trimList (lowerList (name.toList.map accentFold))

/-- `bruxellois_authenticity_score` (`brussels_reranking.py`, lines 411–435):
first matching curated institution wins; otherwise friteries score by
commune; otherwise 0. -/
def bruxellois_authenticity_score (name : String) (commune : String) : ℚ :=
  if name = "" then 0
  else
    let name_lower := trimList (lowerList name.toList)
    let name_normalized := normalize_name_for_matching name
    match BRUXELLOIS_INSTITUTIONS.find?
        (fun p => subMatch p.1.toList name_lower ||
          subMatch p.1.toList name_normalized) with
    | some p => p.2
    | none =>
        if is_friterie name then
          match alookup FRITERIE_AUTHENTICITY commune with
          | some v => v
          | none => 0
        else 0

/-! ## Family-restaurant naming patterns
(`brussels_reranking.py`, lines 921–963) -/

/-- Consume one-or-more whitespace characters (`\s+`); `none` when the input
does not start with whitespace. -/
def ws1 : List Char → Option (List Char)
  | [] => none
  | c :: cs => if c.isWhitespace then some (dropWs cs) else none

/-- Does the input start with a regex word character (`\w+` needs one)? -/
def word1 : List Char → Bool
  | [] => false
  | c :: _ => isWordChar c

/-- Match `^(de\s+)?\w+` at the current position (with the backtracking
Python's `re` would perform when the optional group consumes the only word). -/
def deThenWord (s : List Char) : Bool :=
  (if prefixMatch "de".toList s then
    match ws1 (s.drop 2) with
    | some rest => word1 rest
    | none => false
  else false) || word1 s

/-- `is_family_restaurant_name` (`brussels_reranking.py`, lines 921–963):
returns `(is_family, pattern_matched)`, checking the same patterns in the
same order as the source. -/
def is_family_restaurant_name (name : String) : Bool × Option String :=
  if name = "" then (false, none)
  else
    let nl := trimList (lowerList name.toList)
    -- ^chez\s+\w+
    if prefixMatch "chez".toList nl &&
        (match ws1 (nl.drop 4) with
         | some rest => word1 rest
         | none => false) then (true, some "chez")
    -- ^(la\s+)?maison\s+(de\s+)?\w+
    else if (prefixMatch "la".toList nl &&
          (match ws1 (nl.drop 2) with
           | some rest =>
              prefixMatch "maison".toList rest &&
                (match ws1 (rest.drop 6) with
                 | some r2 => deThenWord r2
                 | none => false)
           | none => false)) ||
        (prefixMatch "maison".toList nl &&
          (match ws1 (nl.drop 6) with
           | some rest => deThenWord rest
           | none => false)) then (true, some "maison")
    -- ^au\s+(bon|vieux|petit)\s+
    else if prefixMatch "au".toList nl &&
        (match ws1 (nl.drop 2) with
         | some rest =>
            ["bon", "vieux", "petit"].any (fun w =>
              prefixMatch w.toList rest &&
                (ws1 (rest.drop w.length)).isSome)
         | none => false) then (true, some "au_tradition")
    -- ^bij\s+\w+
    else if prefixMatch "bij".toList nl &&
        (match ws1 (nl.drop 3) with
         | some rest => word1 rest
         | none => false) then (true, some "bij")
    -- ^'?t\s+\w+
    else if (let nt := if nl.head? = some apoChar then nl.drop 1 else nl
         prefixMatch "t".toList nt &&
           (match ws1 (nt.drop 1) with
            | some rest => word1 rest
            | none => false)) then (true, some "t_diminutive")
    -- \b(mama|papa|nonna|oma|opa)\b
    else if ["mama", "papa", "nonna", "oma", "opa"].any
        (fun w => wordMatch w nl) then
      (true, some "family_title")
    else (false, none)

/-! ## Reddit community endorsement
(`brussels_reranking.py`, lines 181–229) -/

/-- `reddit_community_score` (lines 181–229).  The mentions table (loaded
from a data file by `load_reddit_mentions`) is passed explicitly as an
association list `normalized name ↦ mention count`; the empty list models an
absent/empty data file.  Matching is by exact normalized name only
(`lower().strip()`), mirroring the source's deliberate avoidance of fuzzy
matching.  Returns `(final_score, mention_count)`. -/
def reddit_community_score (mentions : List (String × ℕ)) (name : String)
    (review_count : ℕ) : ℚ × ℕ :=
  if name = "" ∨ mentions = [] then (0, 0)
  else
    let name_lower := String.mk (trimList (lowerList name.toList))
    let mention_count := (alookup mentions name_lower).getD 0
    if mention_count = 0 then (0, 0)
    else
      let base_score : ℚ :=
        if 10 ≤ mention_count then 1.0
        else if 5 ≤ mention_count then 0.8
        else if 3 ≤ mention_count then 0.6
        else if 2 ≤ mention_count then 0.4
        else 0.2
      let size_multiplier : ℚ :=
        if review_count ≠ 0 ∧ review_count < 200 then 1.2
        else if review_count ≠ 0 ∧ 2000 < review_count then 0.7
        else 1.0
      (min 1.0 (base_score * size_multiplier), mention_count)

/-! ## Review-count scarcity (`brussels_reranking.py`, lines 779–809) -/

/-- The review-count scarcity sub-component of `unified_scarcity_score`
(lines 794–809): the "Goldilocks zone" piecewise table guarded by
`rating and review_count and rating >= 4.0` (Python truthiness: a zero
rating or a zero review count short-circuits to 0). -/
def reviewScarcity (rating : ℚ) (review_count : ℕ) : ℚ :=
  if rating ≠ 0 ∧ review_count ≠ 0 ∧ 4.0 ≤ rating then
    if 50 ≤ review_count ∧ review_count ≤ 200 then 1.0
    else if 200 < review_count ∧ review_count ≤ 500 then 0.7
    else if 35 ≤ review_count ∧ review_count < 50 then
      0.3 + 0.6 * (((review_count : ℚ) - 35) / 15)
    else if 20 ≤ review_count ∧ review_count < 35 then 0.0
    else if 500 < review_count ∧ review_count ≤ 1000 then 0.3
    else 0
  else 0

/-! ## Price-based bonuses and penalties
(`brussels_reranking.py`, lines 1106–1145) -/

/-- `_calculate_value_bonus` (lines 1106–1125). -/
def valueBonus (price_level rating : ℚ) : ℚ :=
  if price_level = 0 ∨ rating = 0 then 0
  else if price_level = 1 ∧ 4.5 ≤ rating then 0.04
  else if price_level = 1 ∧ 4.2 ≤ rating then 0.02
  else if price_level = 2 ∧ 4.6 ≤ rating then 0.02
  else if price_level = 2 ∧ 4.4 ≤ rating then 0.01
  else 0

/-- `_calculate_price_quality_penalty` (lines 1128–1145). -/
def priceQualityPenalty (price_level rating : ℚ) : ℚ :=
  if price_level = 0 ∨ rating = 0 then 0
  else if price_level = 4 then
    if rating < 4.5 then -0.10 * (4.5 - rating) else 0
  else if price_level = 3 then
    if rating < 4.3 then -0.06 * (4.3 - rating) else 0
  else 0

/-- Rating-extremity factor of `_calculate_low_review_penalty`
(lines 1193–1203). -/
def ratingExtremity (rating : ℚ) : ℚ :=
  if rating = 5.0 then 1.0
  else if 4.8 ≤ rating then 0.8
  else if 4.5 ≤ rating then 0.5
  else if 4.0 ≤ rating then 0.2
  else 0.0

/-! ## Cuisine rarity within a commune
(`brussels_reranking.py`, lines 472–492) -/

/-- `cuisine_rarity_score` (lines 472–492); `cuisine_counts_by_commune` is
the per-commune cuisine histogram computed by `rerank_restaurants`. -/
def cuisine_rarity_score (cuisine commune : String)
    (cuisine_counts_by_commune : List (String × List (String × ℕ))) : ℚ :=
  match alookup cuisine_counts_by_commune commune with
  | none => 0.5
  | some commune_cuisines =>
      let total : ℕ := (commune_cuisines.map (·.2)).sum
      if total = 0 then 0.5
      else
        let cuisine_count : ℕ := (alookup commune_cuisines cuisine).getD 0
        let frequency : ℚ := (cuisine_count : ℚ) / (total : ℚ)
        if frequency = 0 then 1.0
        else min 1.0 (1 / (frequency * 10))

/-! ## Geography (`brussels_context.py`, lines 182–338 and 1217–1292)

The source computes great-circle distances with `math` trigonometry on
floats; this is modelled over `ℝ` with the corresponding real functions, so
the definitions in this section are noncomputable. -/

section RealGeo

open Classical

/-- `math.radians`. -/
noncomputable def radiansR (x : ℝ) : ℝ := x * Real.pi / 180

/-- `math.atan2`, by the standard case split. -/
noncomputable def atan2R (y x : ℝ) : ℝ :=
  if 0 < x then Real.arctan (y / x)
  else if x < 0 ∧ 0 ≤ y then Real.arctan (y / x) + Real.pi
  else if x < 0 then Real.arctan (y / x) - Real.pi
  else if 0 < y then Real.pi / 2
  else if y < 0 then -(Real.pi / 2)
  else 0

/-- `haversine_distance` (`brussels_context.py`, lines 1217–1229), in km. -/
noncomputable def haversine_distance (lat1 lng1 lat2 lng2 : ℝ) : ℝ :=
  let R : ℝ := 6371
  let lat1_rad := radiansR lat1
  let lat2_rad := radiansR lat2
  let delta_lat := radiansR (lat2 - lat1)
  let delta_lng := radiansR (lng2 - lng1)
  let a := Real.sin (delta_lat / 2) ^ 2 +
    Real.cos lat1_rad * Real.cos lat2_rad * Real.sin (delta_lng / 2) ^ 2
  let c := 2 * atan2R (Real.sqrt a) (Real.sqrt (1 - a))
  R * c

/-- `GRAND_PLACE` (tourist epicenter, line 182). -/
noncomputable def GRAND_PLACE : ℝ × ℝ := (50.8467, 4.3525)

/-- `PLACE_SCHUMAN` (EU-bubble center, line 185). -/
noncomputable def PLACE_SCHUMAN : ℝ × ℝ := (50.8427, 4.3827)

/-- One entry of the `COMMUNES` table. -/
structure CommuneData where
  lat : ℝ
  lng : ℝ
  tier : String

/-- `COMMUNES` (lines 197–217): the 19 communes with approximate centers and
tier labels, in declaration order. -/
noncomputable def COMMUNES : List (String × CommuneData) :=
  [("Anderlecht", ⟨50.8333, 4.3072, "underexplored"⟩),
   ("Auderghem", ⟨50.8167, 4.4333, "local_foodie"⟩),
   ("Berchem-Sainte-Agathe", ⟨50.8667, 4.2917, "underexplored"⟩),
   ("Bruxelles", ⟨50.8503, 4.3517, "tourist_heavy"⟩),
   ("Etterbeek", ⟨50.8333, 4.3833, "eu_bubble"⟩),
   ("Evere", ⟨50.8667, 4.4000, "underexplored"⟩),
   ("Forest", ⟨50.8103, 4.3242, "underexplored"⟩),
   ("Ganshoren", ⟨50.8750, 4.3083, "underexplored"⟩),
   ("Ixelles", ⟨50.8275, 4.3697, "mixed"⟩),
   ("Jette", ⟨50.8792, 4.3250, "underexplored"⟩),
   ("Koekelberg", ⟨50.8625, 4.3292, "underexplored"⟩),
   ("Molenbeek-Saint-Jean", ⟨50.8547, 4.3286, "diaspora_hub"⟩),
   ("Saint-Gilles", ⟨50.8261, 4.3456, "diaspora_hub"⟩),
   ("Saint-Josse-ten-Noode", ⟨50.8553, 4.3703, "diaspora_hub"⟩),
   ("Schaerbeek", ⟨50.8653, 4.3778, "diaspora_hub"⟩),
   ("Uccle", ⟨50.8000, 4.3333, "local_foodie"⟩),
   ("Watermael-Boitsfort", ⟨50.7958, 4.4125, "local_foodie"⟩),
   ("Woluwe-Saint-Lambert", ⟨50.8417, 4.4333, "local_foodie"⟩),
   ("Woluwe-Saint-Pierre", ⟨50.8333, 4.4500, "local_foodie"⟩)]

/-- One entry of the `NEIGHBORHOODS` table; `radius` is the optional
override of the 0.5 km default used by `get_neighborhood`. -/
structure NeighborhoodData where
  commune : String
  lat : ℝ
  lng : ℝ
  tier : String
  cuisine_affinity : List String
  radius : Option ℝ

/-- `NEIGHBORHOODS` (lines 222–236), in declaration order (the order the
Python dict is iterated in). -/
noncomputable def NEIGHBORHOODS : List (String × NeighborhoodData) :=
  [("Matongé", ⟨"Ixelles", 50.8295, 4.3680, "local_foodie",
      ["Congolese", "African"], some 0.3⟩),
   ("Châtelain", ⟨"Ixelles", 50.8235, 4.3600, "local_foodie",
      ["French", "Belgian", "Brunch"], none⟩),
   ("Sainte-Catherine", ⟨"Bruxelles", 50.8511, 4.3461, "local_foodie",
      ["Seafood", "Belgian"], none⟩),
   ("Marolles", ⟨"Bruxelles", 50.8389, 4.3444, "local_foodie",
      ["Belgian"], none⟩),
   ("Saint-Boniface", ⟨"Ixelles", 50.8308, 4.3672, "local_foodie",
      ["Belgian", "French"], none⟩),
   ("Rue des Bouchers", ⟨"Bruxelles", 50.8478, 4.3544, "tourist_trap",
      [], none⟩),
   ("Grand Place", ⟨"Bruxelles", 50.8467, 4.3525, "tourist_trap", [], none⟩),
   ("European Quarter", ⟨"Etterbeek", 50.8427, 4.3827, "eu_bubble",
      [], none⟩),
   ("Gare du Nord", ⟨"Schaerbeek", 50.8597, 4.3614, "mixed",
      ["Turkish", "Middle Eastern"], none⟩),
   ("Flagey", ⟨"Ixelles", 50.8275, 4.3720, "local_foodie",
      ["Belgian", "Brunch"], none⟩),
   ("Parvis Saint-Gilles", ⟨"Saint-Gilles", 50.8270, 4.3465, "local_foodie",
      ["French", "Belgian"], none⟩),
   ("Dansaert", ⟨"Bruxelles", 50.8505, 4.3430, "local_foodie",
      ["Belgian", "French"], none⟩),
   ("Sablon", ⟨"Bruxelles", 50.8420, 4.3550, "mixed",
      ["French", "Belgian"], none⟩)]

/-- `get_commune` (lines 1251–1262): nearest commune center by Haversine
distance, scanning the table in order with a running minimum initialised to
`(float('inf'), "Bruxelles")`; `none` models the infinite initial distance. -/
noncomputable def getCommuneAux (lat lng : ℝ) :
    List (String × CommuneData) → String → Option ℝ → String
  | [], best, _ => best
  | (c, d) :: rest, best, cur =>
      let dist := haversine_distance lat lng d.lat d.lng
      if (match cur with
          | none => True
          | some m => dist < m) then
        getCommuneAux lat lng rest c (some dist)
      else getCommuneAux lat lng rest best cur

/-- `get_commune`, entry point. -/
noncomputable def get_commune (lat lng : ℝ) : String :=
  getCommuneAux lat lng COMMUNES "Bruxelles" none

/-- `get_neighborhood` (lines 1265–1273): first table entry (in declaration
order) whose center is strictly within its radius (custom radius if
specified, otherwise the 0.5 km default); `none` when no entry contains the
point. -/
noncomputable def getNeighborhoodAux (lat lng : ℝ) :
    List (String × NeighborhoodData) → Option (String × NeighborhoodData)
  | [] => none
  | (name, data) :: rest =>
      let dist := haversine_distance lat lng data.lat data.lng
      let radius := data.radius.getD 0.5
      if dist < radius then some (name, data)
      else getNeighborhoodAux lat lng rest

/-- `get_neighborhood`, entry point. -/
noncomputable def get_neighborhood (lat lng : ℝ) :
    Option (String × NeighborhoodData) :=
  getNeighborhoodAux lat lng NEIGHBORHOODS

/-- `distance_to_grand_place` (lines 1276–1278). -/
noncomputable def distance_to_grand_place (lat lng : ℝ) : ℝ :=
  haversine_distance lat lng GRAND_PLACE.1 GRAND_PLACE.2

/-- `distance_to_eu_quarter` (lines 1281–1283). -/
noncomputable def distance_to_eu_quarter (lat lng : ℝ) : ℝ :=
  haversine_distance lat lng PLACE_SCHUMAN.1 PLACE_SCHUMAN.2

/-- One entry of `LOCAL_FOOD_STREETS`. -/
structure StreetData where
  name : String
  lat : ℝ
  lng : ℝ
  radius : ℝ

/-- `LOCAL_FOOD_STREETS` (lines 241–327), in declaration order. -/
noncomputable def LOCAL_FOOD_STREETS : List StreetData :=
  [⟨"Chaussée de Gand", 50.8570, 4.3320, 0.30⟩,
   ⟨"Rue de Brabant", 50.8555, 4.3595, 0.25⟩,
   ⟨"Foodmet/Clemenceau", 50.8400, 4.3180, 0.25⟩,
   ⟨"Cureghem", 50.8380, 4.3180, 0.25⟩,
   ⟨"Chaussée de Haecht", 50.8570, 4.3680, 0.30⟩,
   ⟨"Place Madou Turkish Quarter", 50.8520, 4.3700, 0.15⟩,
   ⟨"Fatih Mosque Area", 50.8590, 4.3650, 0.15⟩,
   ⟨"Chaussée de Wavre (Matongé)", 50.8300, 4.3690, 0.15⟩,
   ⟨"Galerie " ++ apS "d" "Ixelles", 50.8295, 4.3680, 0.08⟩,
   ⟨"Rue Longue Vie", 50.8290, 4.3700, 0.10⟩,
   ⟨"Porte de Namur", 50.8335, 4.3670, 0.12⟩,
   ⟨"Barrière de Saint-Gilles", 50.8225, 4.3445, 0.18⟩,
   ⟨"Rue de Bosnie", 50.8235, 4.3420, 0.12⟩,
   ⟨"Rue du Dries", 50.8130, 4.3220, 0.15⟩,
   ⟨"Osseghem Romanian Quarter", 50.8650, 4.3300, 0.20⟩,
   ⟨"Place du Châtelain", 50.8245, 4.3625, 0.15⟩,
   ⟨"Place Schuman", 50.8427, 4.3827, 0.20⟩,
   ⟨"Place du Luxembourg", 50.8380, 4.3715, 0.15⟩,
   ⟨"Chaussée de Louvain", 50.8545, 4.3750, 0.20⟩,
   ⟨"Rue de " ++ apS "l" "Argonne", 50.8340, 4.3640, 0.12⟩,
   ⟨"Boulevard Jamar", 50.8360, 4.3350, 0.15⟩,
   ⟨"Porte de Hal", 50.8365, 4.3480, 0.15⟩,
   ⟨"Place Flagey", 50.8275, 4.3720, 0.18⟩,
   ⟨"Rue de Moscou", 50.8265, 4.3445, 0.15⟩,
   ⟨"Rue Vanderschrick", 50.8245, 4.3435, 0.15⟩,
   ⟨"Rue du Fort", 50.8255, 4.3490, 0.15⟩,
   ⟨"Chaussée de Charleroi", 50.8300, 4.3520, 0.20⟩,
   ⟨"Parvis de Saint-Gilles", 50.8270, 4.3465, 0.15⟩,
   ⟨"Rue Lesbroussart", 50.8265, 4.3755, 0.15⟩,
   ⟨"Rue du Page", 50.8235, 4.3580, 0.15⟩,
   ⟨"Rue Américaine", 50.8231, 4.3591, 0.12⟩,
   ⟨"Rue de la Paix", 50.8295, 4.3665, 0.12⟩,
   ⟨"Rue Josaphat", 50.8580, 4.3780, 0.20⟩,
   ⟨"Place Colignon", 50.8625, 4.3720, 0.15⟩,
   ⟨"Rue Wayez", 50.8395, 4.3095, 0.15⟩,
   ⟨"Rue Léon Théodor", 50.8780, 4.3280, 0.15⟩]

/-- `is_on_local_street` (lines 1286–1292): first street (in declaration
order) whose center is within its radius (inclusive); returns its name. -/
noncomputable def isOnLocalStreetAux (lat lng : ℝ) :
    List StreetData → Option String
  | [] => none
  | s :: rest =>
      if haversine_distance lat lng s.lat s.lng ≤ s.radius then some s.name
      else isOnLocalStreetAux lat lng rest

/-- `is_on_local_street`, entry point (`(False, None)` is modelled as
`none`, `(True, name)` as `some name`). -/
noncomputable def is_on_local_street (lat lng : ℝ) : Option String :=
  isOnLocalStreetAux lat lng LOCAL_FOOD_STREETS

end RealGeo

/-! ## Statistical utilities and score components
(`brussels_reranking.py`, lines 39–93, 232–1211) -/

/-- Python truthiness of an optional float (`if lat and lng`): present and
nonzero. -/
def optTruthy (x : Option ℝ) : Prop := ∃ v, x = some v ∧ v ≠ 0

/-- Python truthiness of an optional dict/list: present and nonempty. -/
def optListTruthy {α : Type} : Option (List α) → Bool
  | some (_ :: _) => true
  | _ => false

section RealScoring

open Classical

/-- `sigmoid` (`brussels_reranking.py`, lines 39–51). -/
noncomputable def sigmoid (x center steepness : ℝ) : ℝ :=
  1 / (1 + Real.exp (-steepness * (x - center)))

/-- `confidence_weight` (`brussels_reranking.py`, lines 54–77): a linear
ramp `0.3·(n/min_reviews)` below `min_reviews`, and the Bayesian-style
`1 − 1/√(1 + n/half_confidence)` from `min_reviews` on. -/
noncomputable def confidence_weight (review_count min_reviews half_confidence : ℕ) : ℝ :=
  if review_count < min_reviews then
    0.3 * ((review_count : ℝ) / (min_reviews : ℝ))
  else
    1 - 1 / Real.sqrt (1 + (review_count : ℝ) / (half_confidence : ℝ))

/-- The tourist-zone test of `tourist_trap_score` (lines 247–256): the
"Rue des Bouchers" neighborhood, or any neighborhood of tier
`tourist_trap`, or within 150 m of the Grand Place.  The source sets the
flag through an `if`/`elif` ladder, which is this disjunction. -/
def inTouristZone (lat lng : ℝ) : Prop :=
  (∃ d, get_neighborhood lat lng = some ("Rue des Bouchers", d)) ∨
  (∃ p, get_neighborhood lat lng = some p ∧ p.2.tier = "tourist_trap") ∨
  distance_to_grand_place lat lng < 0.15

/-- `tourist_trap_score` (`brussels_reranking.py`, lines 232–286).  Inside
the tourist zone the penalty requires high volume and/or a mediocre rating,
exactly as the source's branch ladder. -/
noncomputable def tourist_trap_score (lat lng : ℝ) (rating : ℚ)
    (review_count : ℕ) (_review_languages : Option (List (String × ℕ))) : ℚ :=
  let dist_gp := distance_to_grand_place lat lng
  if inTouristZone lat lng then
    if 1500 < review_count ∧ rating < 4.3 then
      min 1.0 (0.4 + 0.3 * (4.3 - rating))
    else if 1500 < review_count then 0.15
    else if rating < 4.3 ∧ dist_gp < 0.1 then 0.2
    else 0
  else 0

end RealScoring

/-! ## Diaspora authenticity (`brussels_context.py` lines 352–631,
`brussels_reranking.py` lines 289–381 and 1066–1103) -/

/-- `DIASPORA_AUTHENTICITY` (`brussels_context.py`, lines 352–495):
cuisine → commune → authenticity weight. -/
def DIASPORA_AUTHENTICITY : List (String × List (String × ℚ)) :=
  [("Moroccan",
    [("Molenbeek-Saint-Jean", 1.0), ("Anderlecht", 0.9),
     ("Saint-Gilles", 0.85), ("Schaerbeek", 0.85),
     ("Saint-Josse-ten-Noode", 0.8)]),
   ("Tunisian",
    [("Molenbeek-Saint-Jean", 0.9), ("Anderlecht", 0.85),
     ("Saint-Gilles", 0.8), ("Schaerbeek", 0.75)]),
   ("North African",
    [("Molenbeek-Saint-Jean", 0.95), ("Anderlecht", 0.9),
     ("Saint-Gilles", 0.8), ("Schaerbeek", 0.8),
     ("Saint-Josse-ten-Noode", 0.75)]),
   ("Turkish",
    [("Saint-Josse-ten-Noode", 1.0), ("Schaerbeek", 0.9),
     ("Molenbeek-Saint-Jean", 0.7)]),
   ("Congolese",
    [("Ixelles", 1.0), ("Molenbeek-Saint-Jean", 0.7), ("Anderlecht", 0.7),
     ("Saint-Gilles", 0.6), ("Schaerbeek", 0.5)]),
   ("African",
    [("Ixelles", 0.9), ("Molenbeek-Saint-Jean", 0.75), ("Anderlecht", 0.7),
     ("Saint-Gilles", 0.65), ("Schaerbeek", 0.6)]),
   ("West African",
    [("Ixelles", 0.85), ("Molenbeek-Saint-Jean", 0.8), ("Anderlecht", 0.75),
     ("Saint-Gilles", 0.65)]),
   ("Romanian",
    [("Saint-Gilles", 0.8), ("Forest", 0.75), ("Anderlecht", 0.7),
     ("Schaerbeek", 0.65)]),
   ("Polish",
    [("Saint-Gilles", 0.85), ("Forest", 0.8), ("Anderlecht", 0.65)]),
   ("Eastern European",
    [("Saint-Gilles", 0.8), ("Forest", 0.75), ("Anderlecht", 0.7)]),
   ("Syrian",
    [("Saint-Josse-ten-Noode", 0.9), ("Saint-Gilles", 0.85),
     ("Schaerbeek", 0.75)]),
   ("Iraqi",
    [("Saint-Josse-ten-Noode", 0.85), ("Schaerbeek", 0.75)]),
   ("Brazilian",
    [("Saint-Gilles", 0.9), ("Ixelles", 0.65), ("Forest", 0.6)]),
   ("Middle Eastern",
    [("Saint-Josse-ten-Noode", 0.9), ("Schaerbeek", 0.8),
     ("Molenbeek-Saint-Jean", 0.7)]),
   ("Lebanese",
    [("Saint-Josse-ten-Noode", 0.8), ("Ixelles", 0.65),
     ("Saint-Gilles", 0.6)]),
   ("Ethiopian",
    [("Bruxelles", 0.75), ("Ixelles", 0.7), ("Saint-Gilles", 0.5)]),
   ("Portuguese",
    [("Saint-Gilles", 0.9), ("Ixelles", 0.7), ("Forest", 0.65)]),
   ("Vietnamese", [("Bruxelles", 0.7), ("Ixelles", 0.6)]),
   ("Chinese", [("Bruxelles", 0.6), ("Ixelles", 0.5)]),
   ("Indian",
    [("Ixelles", 0.6), ("Saint-Gilles", 0.5), ("Etterbeek", 0.45)]),
   ("Pakistani",
    [("Saint-Josse-ten-Noode", 0.7), ("Schaerbeek", 0.6),
     ("Anderlecht", 0.6)]),
   ("Greek", [("Saint-Gilles", 0.8), ("Ixelles", 0.5)])]

/-- `BELGIAN_AUTHENTICITY` (`brussels_context.py`, lines 498–502). -/
def BELGIAN_AUTHENTICITY : List (String × List (String × ℚ)) :=
  [("Belgian",
    [("Anderlecht", 0.9), ("Schaerbeek", 0.8), ("Forest", 0.8),
     ("Bruxelles", 0.5)]),
   ("Seafood", [("Bruxelles", 0.8)]),
   ("French",
    [("Ixelles", 0.7), ("Uccle", 0.7), ("Saint-Gilles", 0.6)])]

/-- One entry of `DIASPORA_STREETS`: a street reference for a cuisine. -/
structure DStreetRef where
  name : String
  commune : String
  lat : ℚ
  lng : ℚ

/-- `DIASPORA_STREETS` (`brussels_context.py`, lines 557–631):
cuisine → streets where that community's restaurants cluster. -/
def DIASPORA_STREETS : List (String × List DStreetRef) :=
  [("Moroccan",
    [⟨"Chaussée de Gand", "Molenbeek-Saint-Jean", 50.8570, 4.3320⟩,
     ⟨"Rue de Brabant", "Schaerbeek", 50.8555, 4.3595⟩,
     ⟨"Foodmet/Clemenceau", "Anderlecht", 50.8400, 4.3180⟩,
     ⟨"Cureghem", "Anderlecht", 50.8380, 4.3180⟩]),
   ("Tunisian",
    [⟨"Chaussée de Gand", "Molenbeek-Saint-Jean", 50.8570, 4.3320⟩,
     ⟨"Rue de Brabant", "Schaerbeek", 50.8555, 4.3595⟩]),
   ("North African",
    [⟨"Chaussée de Gand", "Molenbeek-Saint-Jean", 50.8570, 4.3320⟩,
     ⟨"Rue de Brabant", "Schaerbeek", 50.8555, 4.3595⟩,
     ⟨"Cureghem", "Anderlecht", 50.8380, 4.3180⟩]),
   ("Turkish",
    [⟨"Chaussée de Haecht", "Saint-Josse-ten-Noode", 50.8570, 4.3680⟩,
     ⟨"Place Madou area", "Saint-Josse-ten-Noode", 50.8520, 4.3700⟩,
     ⟨"Fatih Mosque area", "Schaerbeek", 50.8590, 4.3650⟩]),
   ("Congolese",
    [⟨"Matongé (Chaussée de Wavre)", "Ixelles", 50.8285, 4.3685⟩,
     ⟨"Galerie " ++ apS "d" "Ixelles", "Ixelles", 50.8280, 4.3680⟩,
     ⟨"Rue Longue Vie", "Ixelles", 50.8275, 4.3695⟩]),
   ("African",
    [⟨"Matongé", "Ixelles", 50.8285, 4.3685⟩,
     ⟨"Porte de Namur", "Ixelles", 50.8335, 4.3655⟩]),
   ("Polish",
    [⟨"Barrière de Saint-Gilles", "Saint-Gilles", 50.8225, 4.3445⟩,
     ⟨"Rue de Bosnie", "Saint-Gilles", 50.8235, 4.3420⟩]),
   ("Romanian",
    [⟨"Osseghem area", "Koekelberg", 50.8650, 4.3300⟩,
     ⟨"Anderlecht", "Anderlecht", 50.8333, 4.3072⟩]),
   ("Syrian",
    [⟨"Chaussée de Louvain", "Saint-Josse-ten-Noode", 50.8545, 4.3750⟩,
     ⟨"Place Madou area", "Saint-Josse-ten-Noode", 50.8520, 4.3700⟩]),
   ("Iraqi",
    [⟨"Chaussée de Louvain", "Saint-Josse-ten-Noode", 50.8545, 4.3750⟩]),
   ("Brazilian",
    [⟨"Barrière de Saint-Gilles", "Saint-Gilles", 50.8225, 4.3445⟩,
     ⟨"Place Flagey", "Ixelles", 50.8275, 4.3720⟩]),
   ("Portuguese",
    [⟨"Porte de Hal", "Saint-Gilles", 50.8365, 4.3480⟩,
     ⟨"Place Flagey", "Ixelles", 50.8275, 4.3720⟩]),
   ("Indian",
    [⟨"Rue de " ++ apS "l" "Argonne", "Ixelles", 50.8340, 4.3640⟩,
     ⟨"Boulevard Jamar (Gare du Midi)", "Anderlecht", 50.8360, 4.3350⟩]),
   ("Pakistani",
    [⟨"Rue de " ++ apS "l" "Argonne", "Ixelles", 50.8340, 4.3640⟩,
     ⟨"Boulevard Jamar (Gare du Midi)", "Anderlecht", 50.8360, 4.3350⟩]),
   ("Lebanese",
    [⟨"Ixelles (various)", "Ixelles", 50.8275, 4.3697⟩,
     ⟨"Saint-Gilles", "Saint-Gilles", 50.8261, 4.3456⟩]),
   ("Ethiopian",
    [⟨"Sainte-Catherine", "Bruxelles", 50.8511, 4.3461⟩,
     ⟨"Matongé area", "Ixelles", 50.8285, 4.3685⟩]),
   ("Greek",
    [⟨"Gare du Midi area (Rue de Mérode/Suède)", "Saint-Gilles",
      50.8365, 4.3360⟩,
     ⟨"Ixelles", "Ixelles", 50.8275, 4.3697⟩])]

/-- Split a character list on whitespace runs (Python `str.split()`). -/
def splitWsAux : List Char → List Char → List (List Char)
  | [], acc => if acc.isEmpty then [] else [acc.reverse]
  | c :: cs, acc =>
      if c.isWhitespace then
        if acc.isEmpty then splitWsAux cs [] else acc.reverse :: splitWsAux cs []
      else splitWsAux cs (c :: acc)

/-- The word set a street name is reduced to for the diaspora street-match:
lowercase, turn parentheses into spaces, split on whitespace
(`brussels_reranking.py`, lines 341–342). -/
def streetWords (s : String) : List (List Char) :=
  splitWsAux ((lowerList s.toList).map
    (fun c => if c = '(' ∨ c = ')' then ' ' else c)) []

/-- The stopword set removed before the overlap test (line 344). -/
def streetStopwords : List (List Char) :=
  ["de", "la", "le", "du", "des", "l", "d"].map String.toList

/-- Word-overlap test between a matched local street and a diaspora street
entry (lines 341–351): at least one shared word survives stopword removal. -/
def streetOverlap (localName diasporaName : String) : Bool :=
  let lw := (streetWords localName).filter (fun w => !streetStopwords.contains w)
  let dw := (streetWords diasporaName).filter (fun w => !streetStopwords.contains w)
  lw.any (fun w => dw.contains w)

section RealScoring2

open Classical

/-- `diaspora_bonus_score` (`brussels_reranking.py`, lines 289–381):
authenticity-matrix score, street bonus for matching cuisines, and
review-language boost.  Returns `(commune_score, street_name)`. -/
noncomputable def diaspora_bonus_score (cuisine commune : String)
    (lat lng : Option ℝ) (review_languages : Option (List (String × ℕ))) :
    ℚ × Option String :=
  let cs0 : ℚ :=
    match alookup DIASPORA_AUTHENTICITY cuisine with
    | some commune_scores =>
        match alookup commune_scores commune with
        | some v => v
        | none => 0.2
    | none => 0
  let cs1 : ℚ :=
    match alookup BELGIAN_AUTHENTICITY cuisine with
    | some commune_scores =>
        match alookup commune_scores commune with
        | some v => max cs0 v
        | none => cs0
    | none => cs0
  let stepStreet : ℚ × Option String :=
    if 0 < cs1 ∧ optTruthy lat ∧ optTruthy lng then
      match is_on_local_street (lat.getD 0) (lng.getD 0) with
      | some local_street_name =>
          let street_matches_cuisine :=
            match alookup DIASPORA_STREETS cuisine with
            | some cuisine_streets =>
                cuisine_streets.any
                  (fun si => streetOverlap local_street_name si.name)
            | none => false
          if street_matches_cuisine then
            (min 1.0 (cs1 + 0.3), some local_street_name)
          else (cs1, none)
      | none => (cs1, none)
    else (cs1, none)
  let cs2 := stepStreet.1
  let diaspora_languages : List (String × List String) :=
    [("Congolese", ["fr", "ln"]), ("African", ["fr", "ln", "sw"]),
     ("Moroccan", ["ar", "fr"]), ("Turkish", ["tr"]),
     ("Lebanese", ["ar", "fr"]), ("Portuguese", ["pt"]),
     ("Vietnamese", ["vi"]), ("Chinese", ["zh"])]
  let cs3 : ℚ :=
    if optListTruthy review_languages ∧ 0 < cs2 then
      match alookup diaspora_languages cuisine with
      | some relevant_langs =>
          let langs := review_languages.getD []
          let total : ℕ := (langs.map (·.2)).sum
          if 0 < total then
            let relevant : ℕ :=
              (relevant_langs.map (fun l => (alookup langs l).getD 0)).sum
            min 1.0 (cs2 + 0.2 * ((relevant : ℚ) / (total : ℚ)))
          else cs2
      | none => cs2
    else cs2
  (cs3, stepStreet.2)

/-- `_calculate_diaspora_bonus` (`brussels_reranking.py`, lines 1066–1103):
the diaspora score after the tourist-trap, hipster-name, fine-dining,
low-rating and non-restaurant-location filters, scaled by the 0.07 weight. -/
noncomputable def calculateDiasporaBonus (cuisine commune : String)
    (lat lng : Option ℝ) (review_languages : Option (List (String × ℕ)))
    (name address : String) (price_level rating : ℚ)
    (tourist_trap_raw : ℚ) : ℚ × Option String :=
  let ds0 := diaspora_bonus_score cuisine commune lat lng review_languages
  if 0.3 < tourist_trap_raw then (0, none)
  else
    let hipster_keywords := ["eatery", "kitchen", "factory", "lab",
      "workshop", "studio", "house", "corner", "spot"]
    let s1 : ℚ :=
      if name ≠ "" ∧ hipster_keywords.any
          (fun kw => subMatch kw.toList (lowerList name.toList)) then
        ds0.1 * 0.3
      else ds0.1
    let s2 : ℚ := if price_level = 4 then s1 * 0.2 else s1
    if rating ≠ 0 ∧ rating < 3.5 then (0, none)
    else
      let non_restaurant_locations := ["wolf", "food market", "food hall",
        "casino", "viage", "hotel restaurant", "station", "gare", "sncb",
        "nmbs"]
      if name ≠ "" ∧ address ≠ "" ∧
          (let combined := lowerList ((name ++ " " ++ address).toList)
           non_restaurant_locations.any (fun l => subMatch l.toList combined)) then
        (0, none)
      else (0.07 * s2, ds0.2)

/-- `eu_bubble_penalty` (`brussels_reranking.py`, lines 966–993). -/
noncomputable def eu_bubble_penalty (lat lng : ℝ) (price_level : ℚ)
    (review_languages : Option (List (String × ℕ))) : ℝ :=
  let dist_eu := distance_to_eu_quarter lat lng
  if 1.0 < dist_eu then 0
  else
    let proximity_score : ℝ := 1 - dist_eu / 1.0
    let price_score : ℚ :=
      if price_level ≠ 0 ∧ 3 ≤ price_level then (price_level - 2) / 2 else 0
    let language_score : ℚ :=
      if optListTruthy review_languages then
        let langs := review_languages.getD []
        let total : ℕ := (langs.map (·.2)).sum
        if 0 < total then
          if 0.7 < ((alookup langs "en").getD 0 : ℚ) / (total : ℚ) then 0.5
          else 0
        else 0
      else 0
    proximity_score * ((0.4 * price_score + 0.3 * language_score + 0.3 : ℚ) : ℝ)

/-- `KNOWN_FRITKOTS` (inside `_calculate_review_adjustment`, line 1014). -/
def KNOWN_FRITKOTS : List String :=
  ["maison antoine", "chez clementine", "la baraque à frites"]

/-- The fritkot exception of `_calculate_review_adjustment`
(lines 1014–1019). -/
def isFritkot (cuisine name : String) : Bool :=
  let name_lower := lowerList name.toList
  (cuisine = "Fast Food" || cuisine = "Belgian") &&
    (["frit", "fritkot", "frituur", "friterie", "friture"].any
        (fun t => subMatch t.toList name_lower) ||
      KNOWN_FRITKOTS.any (fun k => subMatch k.toList name_lower))

/-- `_calculate_review_adjustment` (`brussels_reranking.py`,
lines 1000–1063): the smooth saturation curve over review count, with the
fritkot exception and tier-dependent high-volume penalties. -/
noncomputable def calculateReviewAdjustment (review_count : ℕ)
    (cuisine name tier : String) : ℝ :=
  let n : ℝ := review_count
  if review_count < 25 then
    -0.30 * (1 - sigmoid n 15 0.2)
  else if review_count ≤ 150 then
    0.05 * Real.exp (-((n - 75) ^ 2) / (2 * 40 ^ 2))
  else if review_count ≤ 600 then
    0.05 * Real.exp (-((n - 300) ^ 2) / (2 * 150 ^ 2))
  else if review_count ≤ 1200 then
    0.02 * (1 - sigmoid n 900 0.005)
  else if isFritkot cuisine name then 0
  else if tier = "local_foodie" ∨ tier = "diaspora_hub" ∨
      tier = "underexplored" then
    max (-0.10) (-0.03 * sigmoid n 2000 0.001)
  else
    max (-0.20) (-0.08 * sigmoid n 1500 0.002)

/-- `_calculate_low_review_penalty` (`brussels_reranking.py`,
lines 1174–1211): confidence-weighted penalty for statistically unreliable
ratings, zero from 200 reviews on. -/
noncomputable def calculateLowReviewPenalty (review_count : ℕ) (rating : ℚ) : ℝ :=
  if 200 ≤ review_count then 0
  else
    -0.15 * (1 - confidence_weight review_count 10 50) *
      ((ratingExtremity rating : ℚ) : ℝ)

end RealScoring2

/-! ## Opening-hours parsing and the horseshoe bonus
(`brussels_reranking.py`, lines 522–839)

The source first tokenizes a Google-Maps hours string with a regular
expression into per-day lists of `(open hour, open AM/PM?, close hour,
close AM/PM?)` captures (minutes are captured but never used).  The
embedding takes that tokenized form as input — a day is a `Closed` marker or
a list of raw shifts — and models everything the source computes *from* the
captures (AM/PM inference, overnight normalization, service-coupé and
late-close counting) exactly.  An unparseable or absent hours string is the
`none` input. -/

/-- One regex capture: hours with optional AM(`some false`)/PM(`some true`)
markers. -/
structure RawShift where
  openH : ℕ
  openPM : Option Bool
  closeH : ℕ
  closePM : Option Bool

/-- One weekday line: either marked `Closed`, or a list of captured shifts. -/
structure RawDay where
  closed : Bool
  shifts : List RawShift

/-- The summary produced by `parse_opening_hours` (lines 539–547). -/
structure HoursSummary where
  days_open : ℕ
  total_hours_per_week : ℕ
  latest_close_hour : ℕ
  has_service_coupe : Bool
  closes_late : Bool
  is_lunch_only : Bool
  parsed : Bool
deriving Repr, DecidableEq

/-- The 24-hour conversion of one shift (lines 586–621): AM/PM application,
missing-AM/PM inference from the closing marker, and the overnight rule
`close < open → close += 24`.  Returns `(open_hour, close_hour)`. -/
def convertShift (s : RawShift) : ℕ × ℕ :=
  let open_hour :=
    match s.openPM with
    | some true => if s.openH ≠ 12 then s.openH + 12 else s.openH
    | some false => if s.openH = 12 then 0 else s.openH
    | none =>
        match s.closePM with
        | some true =>
            if s.openH ≤ s.closeH ∨ s.openH = 12 then
              if s.openH ≠ 12 then s.openH + 12 else s.openH
            else s.openH + 12
        | some false => if 6 ≤ s.openH then s.openH + 12 else s.openH
        | none => s.openH
  let close_hour :=
    match s.closePM with
    | some true => if s.closeH ≠ 12 then s.closeH + 12 else s.closeH
    | some false => if s.closeH = 12 then 0 else s.closeH
    | none => s.closeH
  let close_hour := if close_hour < open_hour then close_hour + 24 else close_hour
  (open_hour, close_hour)

/-- Accumulator of the per-day loop of `parse_opening_hours`
(lines 558–655). -/
structure HoursAcc where
  days_open : ℕ
  total_hours : ℕ
  close_hours : List ℕ
  coupe : ℕ
  late : ℕ
  early : ℕ

/-- Maximum of a list of naturals (`max(...)` on the nonempty lists the
source applies it to; 0 on the empty list, as in the source's
`if close_hours else 0` guard). -/
def maxListN (l : List ℕ) : ℕ := l.foldl max 0

/-- One iteration of the day loop (lines 565–655). -/
def stepDay (acc : HoursAcc) (d : RawDay) : HoursAcc :=
  if d.closed then acc
  else
    let conv := d.shifts.map convertShift
    let day_open_hours := conv.map (·.1)
    let day_close_hours := conv.map (·.2)
    let shift_sum := (conv.map (fun p => if p.1 < p.2 then p.2 - p.1 else 0)).sum
    let coupe_hit :=
      2 ≤ d.shifts.length ∧ day_open_hours ≠ [] ∧ day_close_hours ≠ [] ∧
        (let first_close := day_close_hours.headD 0
         let second_open := (day_open_hours.drop 1).headD 0
         13 ≤ first_close ∧ first_close ≤ 16 ∧
           17 ≤ second_open ∧ second_open ≤ 20)
    let latest := maxListN day_close_hours
    { days_open := acc.days_open + 1
      total_hours := acc.total_hours + shift_sum
      close_hours :=
        if day_close_hours = [] then acc.close_hours
        else acc.close_hours ++ [if 24 < latest then latest - 24 else latest]
      coupe := acc.coupe + (if coupe_hit then 1 else 0)
      late := acc.late +
        (if day_close_hours ≠ [] ∧ 25 ≤ latest then 1 else 0)
      early := acc.early +
        (if day_close_hours ≠ [] ∧ latest ≤ 17 then 1 else 0) }

/-- `parse_opening_hours` (lines 522–669), over tokenized input. -/
def parse_opening_hours (input : Option (List RawDay)) : HoursSummary :=
  match input with
  | none =>
      { days_open := 0, total_hours_per_week := 0, latest_close_hour := 0
        has_service_coupe := false, closes_late := false
        is_lunch_only := false, parsed := false }
  | some days =>
      let acc := days.foldl stepDay
        { days_open := 0, total_hours := 0, close_hours := []
          coupe := 0, late := 0, early := 0 }
      { days_open := acc.days_open
        total_hours_per_week := acc.total_hours
        latest_close_hour := maxListN acc.close_hours
        has_service_coupe := 3 ≤ acc.coupe
        closes_late := 3 ≤ acc.late
        is_lunch_only := 4 ≤ acc.early ∧ 4 ≤ acc.days_open
        parsed := true }

/-- `calculate_horseshoe_bonus` (`brussels_reranking.py`, lines 672–753):
the Lark (artisan) / Owl (late-night) U-curve over operating hours; only for
ratings of at least 4.0, and `(0, none)` in the middle zone.  Returns
`(bonus, horseshoe type)`. -/
def calculate_horseshoe_bonus (opening_hours : Option (List RawDay))
    (rating : ℚ) : ℚ × Option String :=
  if rating = 0 ∨ rating < 4.0 then (0, none)
  else
    let hours_data := parse_opening_hours opening_hours
    if !hours_data.parsed then (0, none)
    else
      let larkPair : Bool × ℚ :=
        if hours_data.has_service_coupe then (true, 1.0)
        else if 0 < hours_data.total_hours_per_week ∧
            hours_data.total_hours_per_week < 30 then (true, 0.8)
        else if hours_data.is_lunch_only then (true, 0.7)
        else if hours_data.days_open ≤ 4 ∧ 0 < hours_data.days_open then
          (true, 0.6)
        else (false, 0)
      let owlPair : Bool × ℚ :=
        if hours_data.closes_late then (true, 0.8) else (false, 0)
      if larkPair.1 ∧ owlPair.1 then
        if owlPair.2 ≤ larkPair.2 then (larkPair.2, some "lark")
        else (owlPair.2, some "owl")
      else if larkPair.1 then (larkPair.2, some "lark")
      else if owlPair.1 then (owlPair.2, some "owl")
      else (0, none)

/-- The component breakdown returned by `unified_scarcity_score`
(the three legacy fields are kept at 0 by the source). -/
structure ScarcityComponents where
  review_scarcity : ℚ
  horseshoe_bonus : ℚ
  horseshoe_type : Option String
  hours_scarcity : ℚ
  days_scarcity : ℚ
  schedule_scarcity : ℚ
  cuisine_scarcity : ℚ
deriving Repr, DecidableEq

/-- `unified_scarcity_score` (`brussels_reranking.py`, lines 756–839):
0.70·review scarcity + 0.20·horseshoe + 0.10·rare-cuisine weight, with the
full component breakdown. -/
def unified_scarcity_score (rating : ℚ) (review_count : ℕ) (cuisine : String)
    (opening_hours : Option (List RawDay)) : ℚ × ScarcityComponents :=
  let review_scarcity := reviewScarcity rating review_count
  let horseshoe := calculate_horseshoe_bonus opening_hours rating
  let cuisine_scarcity := (alookup RARE_CUISINES_BRUSSELS cuisine).getD 0
  let total := 0.70 * review_scarcity + 0.20 * horseshoe.1 +
    0.10 * cuisine_scarcity
  (total,
   { review_scarcity := review_scarcity
     horseshoe_bonus := horseshoe.1
     horseshoe_type := horseshoe.2
     hours_scarcity := 0
     days_scarcity := 0
     schedule_scarcity := 0
     cuisine_scarcity := cuisine_scarcity })

/-! ## The Brussels score (`brussels_reranking.py`, lines 1214–1454) -/

/-- One restaurant record as consumed by `calculate_brussels_score`; the
field defaults are the `restaurant.get(...)` defaults of the source.
Opening hours are carried in the tokenized form of `RawDay`. -/
structure Restaurant where
  name : String := ""
  address : String := ""
  lat : Option ℝ := none
  lng : Option ℝ := none
  rating : ℚ := 0
  residual : ℚ := 0
  cuisine : String := "Other"
  review_count : ℕ := 0
  is_chain : Bool := false
  price_numeric : ℚ := 2
  review_languages : Option (List (String × ℕ)) := none
  opening_hours : Option (List RawDay) := none
  closes_early : Bool := false
  typical_close_hour : Option ℚ := none
  weekdays_only : Bool := false
  closed_weekends : Bool := false
  closed_sunday : Bool := false
  days_open_count : Option ℕ := none

section RealScore

open Classical

/-- The `base_quality` component (lines 1285–1289): weight × (rating/5,
0 for a missing rating) × (0.5 + 0.5·confidence). -/
noncomputable def baseQualityComponent (rating : ℚ) (review_count : ℕ) : ℝ :=
  ((POSITIVE_WEIGHTS.base_quality : ℚ) *
      (if rating ≠ 0 then rating / 5.0 else 0) : ℚ) *
    (0.5 + 0.5 * confidence_weight review_count 10 50)

/-- The `ml_residual` component (lines 1291–1295): weight ×
clamp(residual·2, −1, 1) × confidence. -/
noncomputable def mlResidualComponent (residual : ℚ) (review_count : ℕ) : ℝ :=
  ((POSITIVE_WEIGHTS.ml_residual : ℚ) *
      min 1.0 (max (-1.0) (residual * 2)) : ℚ) *
    confidence_weight review_count 10 50

/-- `_determine_tier` (lines 1214–1233). -/
noncomputable def determineTier (total_score : ℝ) : String :=
  if 0.55 ≤ total_score then apS "Chef" "s Kiss"
  else if 0.48 ≤ total_score then "Kitchen Approved"
  else if 0.30 ≤ total_score then "Workable"
  else "Line Cook Shrug"

/-- The per-component breakdown returned under `"components"`
(lines 1435–1453). -/
structure ScoreComponents where
  review_adjustment : ℝ
  base_quality : ℝ
  residual_score : ℝ
  tourist_penalty : ℝ
  diaspora_bonus : ℚ
  independent_bonus : ℚ
  rarity_bonus : ℚ
  eu_penalty : ℝ
  price_quality_penalty : ℚ
  value_bonus : ℚ
  scarcity_bonus : ℚ
  guide_bonus : ℚ
  reddit_bonus : ℚ
  low_review_penalty : ℝ
  family_bonus : ℚ
  specificity_bonus : ℚ
  shop_penalty : ℚ

/-- The scored record returned by `calculate_brussels_score`
(lines 1407–1454).  The purely informational passthrough and display fields
(`diaspora_context`, the diacritics/flag authenticity markers) are omitted:
the source copies them from lookups that never feed the score. -/
structure ScoreResult where
  brussels_score : ℝ
  commune : String
  neighborhood : Option String
  diaspora_street : Option String
  commune_tier : String
  tier : String
  closes_early : Bool
  typical_close_hour : Option ℚ
  weekdays_only : Bool
  closed_sunday : Bool
  days_open_count : Option ℕ
  is_rare_cuisine : Bool
  michelin_stars : ℕ
  bib_gourmand : Bool
  gault_millau : Bool
  reddit_mentions : ℕ
  has_afsca_smiley : Bool
  is_family_restaurant : Bool
  family_pattern : Option String
  scarcity_components : ScarcityComponents
  components : ScoreComponents

/-- `calculate_brussels_score` (`brussels_reranking.py`, lines 1236–1454).
External data that the source reads through module-level caches or helper
modules is passed explicitly: `redditMentions` (the normalized-name →
mention-count table of `load_reddit_mentions`) and `afscaScore` (the
`get_afsca_score` lookup of `afsca_hygiene.py`, informational only). -/
noncomputable def calculate_brussels_score (r : Restaurant)
    (redditMentions : List (String × ℕ)) (afscaScore : String → String → ℚ)
    (commune_review_totals : List (String × ℕ))
    (cuisine_counts_by_commune : List (String × List (String × ℕ))) :
    ScoreResult :=
  let name := r.name
  let address := r.address
  let rating := r.rating
  let residual := r.residual
  let cuisine := r.cuisine
  let review_count := r.review_count
  let price_level := r.price_numeric
  let review_languages := r.review_languages
  let latlng : Prop := optTruthy r.lat ∧ optTruthy r.lng
  let latV := r.lat.getD 0
  let lngV := r.lng.getD 0
  let commune := if latlng then get_commune latV lngV else "Bruxelles"
  let nb := if latlng then get_neighborhood latV lngV else none
  let tier :=
    match nb with
    | some p => p.2.tier
    | none =>
        match alookup COMMUNES commune with
        | some d => d.tier
        | none => "mixed"
  let review_adjustment := calculateReviewAdjustment review_count cuisine name tier
  let base_quality := baseQualityComponent rating review_count
  let residual_score := mlResidualComponent residual review_count
  let tourist_trap_raw : ℚ :=
    if latlng then
      tourist_trap_score latV lngV rating review_count review_languages
    else 0
  let collinearity_factor : ℝ := if 0 ≤ review_adjustment then 1.0 else 0.5
  let tourist_penalty : ℝ :=
    ((PENALTY_CAPS.tourist_trap * tourist_trap_raw : ℚ) : ℝ) *
      collinearity_factor
  let diaspora := calculateDiasporaBonus cuisine commune r.lat r.lng
    review_languages name address price_level rating tourist_trap_raw
  let independent_bonus : ℚ :=
    POSITIVE_WEIGHTS.independent * (if r.is_chain then 0 else 1)
  let chain_penalty : ℚ := if r.is_chain then PENALTY_CAPS.chain else 0
  let rarity_bonus : ℚ := POSITIVE_WEIGHTS.cuisine_rarity *
    cuisine_rarity_score cuisine commune cuisine_counts_by_commune
  let eu_penalty : ℝ :=
    if latlng then
      (PENALTY_CAPS.eu_bubble : ℝ) *
        eu_bubble_penalty latV lngV price_level review_languages
    else 0
  let price_quality_penalty := priceQualityPenalty price_level rating
  let value_bonus := valueBonus price_level rating
  let scarcity := unified_scarcity_score rating review_count cuisine
    r.opening_hours
  let scarcity_bonus : ℚ := POSITIVE_WEIGHTS.scarcity * scarcity.1
  let guide := guideBonus name
  let reddit := reddit_community_score redditMentions name review_count
  let reddit_bonus : ℚ := POSITIVE_WEIGHTS.reddit * reddit.1
  let low_review_penalty := calculateLowReviewPenalty review_count rating
  let has_afsca_smiley : Bool := 0 < afscaScore name address
  let family := is_family_restaurant_name name
  let family_bonus : ℚ :=
    if family.1 ∧ ¬r.is_chain then POSITIVE_WEIGHTS.family_name else 0
  let specificity_bonus : ℚ :=
    POSITIVE_WEIGHTS.specificity * get_cuisine_specificity_bonus cuisine
  let shop_penalty : ℚ :=
    if is_non_restaurant_shop name then PENALTY_CAPS.shop else 0
  let bruxellois_bonus : ℚ :=
    POSITIVE_WEIGHTS.bruxellois * bruxellois_authenticity_score name commune
  let total : ℝ :=
    review_adjustment + base_quality + residual_score + tourist_penalty +
      (diaspora.1 : ℝ) + (independent_bonus : ℝ) + (chain_penalty : ℝ) +
      (rarity_bonus : ℝ) + eu_penalty + (price_quality_penalty : ℝ) +
      (value_bonus : ℝ) + (scarcity_bonus : ℝ) + (guide.1 : ℝ) +
      (reddit_bonus : ℝ) + low_review_penalty + (family_bonus : ℝ) +
      (specificity_bonus : ℝ) + (shop_penalty : ℝ) + (bruxellois_bonus : ℝ)
  let clamped : ℝ := max 0.0 (min 1.0 total)
  { brussels_score := clamped
    commune := commune
    neighborhood := nb.map (·.1)
    diaspora_street := diaspora.2
    commune_tier := tier
    tier := determineTier clamped
    closes_early := r.closes_early
    typical_close_hour := r.typical_close_hour
    weekdays_only := r.weekdays_only
    closed_sunday := r.closed_sunday
    days_open_count := r.days_open_count
    is_rare_cuisine := 0 < (alookup RARE_CUISINES_BRUSSELS cuisine).getD 0
    michelin_stars := guide.2.1
    bib_gourmand := guide.2.2.1
    gault_millau := guide.2.2.2
    reddit_mentions := reddit.2
    has_afsca_smiley := has_afsca_smiley
    is_family_restaurant := family.1
    family_pattern := family.2
    scarcity_components := scarcity.2
    components :=
      { review_adjustment := review_adjustment
        base_quality := base_quality
        residual_score := residual_score
        tourist_penalty := tourist_penalty
        diaspora_bonus := diaspora.1
        independent_bonus := independent_bonus
        rarity_bonus := rarity_bonus
        eu_penalty := eu_penalty
        price_quality_penalty := price_quality_penalty
        value_bonus := value_bonus
        scarcity_bonus := scarcity_bonus
        guide_bonus := guide.1
        reddit_bonus := reddit_bonus
        low_review_penalty := low_review_penalty
        family_bonus := family_bonus
        specificity_bonus := specificity_bonus
        shop_penalty := shop_penalty } }

end RealScore

/-! ## Reranker chain re-check (`brussels_reranking.py`, lines 1467–1476) -/

/-- A dataframe row as seen by the chain re-check step of
`rerank_restaurants` (only the columns that step reads or writes). -/
structure RerankRow where
  name : String
  is_chain : Bool
deriving Repr, DecidableEq

/-- The chain re-check of `rerank_restaurants` (lines 1467–1476):
`df["is_chain"] = df["name"].apply(is_chain_restaurant)` — the stored flag
is recomputed from `CHAIN_PATTERNS` for every row (the surrounding lines
only log how many names are flagged afterwards). -/
def rerankChainRecheck (rows : List RerankRow) : List RerankRow :=
  rows.map (fun r => { r with is_chain := is_chain_restaurant r.name })

/-! ## Query surface (`app.py`, lines 263–394 and 449–466) -/

/-- One row of the scored corpus as served by the Flask endpoints (the
columns the filters read).  `opening_hours` carries the parsed list of
weekday strings that `safe_parse_hours` would return (`none` models an
absent or unparseable value). -/
structure AppRecord where
  name : String := ""
  rating : ℚ := 0
  review_count : ℕ := 0
  cuisine : String := ""
  commune : String := ""
  tier : String := ""
  venue_type : String := ""
  price_numeric : ℚ := 0
  brussels_score : ℚ := 0
  residual : ℚ := 0
  michelin_stars : ℕ := 0
  bib_gourmand : Bool := false
  gault_millau : Bool := false
  reddit_mentions : ℕ := 0
  has_afsca_smiley : Bool := false
  opening_hours : Option (List String) := none
deriving Repr, DecidableEq

/-- The query parameters of `/api/restaurants` (lines 272–286), with the
defaults the endpoint applies; `open_time` is parsed by the endpoint but
never used server-side. -/
structure RestaurantQuery where
  min_rating : Option ℚ := none
  max_rating : Option ℚ := none
  cuisine : Option String := none
  min_reviews : Option ℕ := none
  brussels_gems : Bool := false
  search : String := ""
  price_level : Option ℚ := none
  commune : Option String := none
  tier : Option String := none
  venue_type : Option String := none
  diaspora_only : Bool := false
  sort_by : String := "brussels_score"
  guide : Option String := none
  open_day : Option String := none
  open_time : Option ℕ := none

/-- Python truthiness of an optional number (`if min_rating:`): present and
nonzero. -/
def qTruthy (x : Option ℚ) : Bool :=
  match x with
  | some v => v != 0
  | none => false

/-- Python truthiness of an optional integer. -/
def natTruthy (x : Option ℕ) : Bool :=
  match x with
  | some v => v != 0
  | none => false

/-- Python truthiness of an optional string: present and nonempty. -/
def strTruthy (x : Option String) : Bool :=
  match x with
  | some s => s != ""
  | none => false

/-- Stable descending insertion (used to model `sort_values(...,
ascending=False)` and `nlargest`): an element is placed before the first
strictly smaller key. -/
def insertDescBy (key : AppRecord → ℚ) (x : AppRecord) :
    List AppRecord → List AppRecord
  | [] => [x]
  | y :: ys =>
      if key y < key x then x :: y :: ys else y :: insertDescBy key x ys

/-- Descending sort by a rational key. -/
def sortDescBy (key : AppRecord → ℚ) (l : List AppRecord) : List AppRecord :=
  l.foldr (insertDescBy key) []

/-- `is_open_on_day` (lines 341–348): unknown hours are included; otherwise
the first line starting with the requested day decides, and a missing day
line excludes the record. -/
def isOpenOnDay (hours : Option (List String)) (day : String) : Bool :=
  match hours with
  | none => true
  | some [] => true
  | some hs => firstDayMatch hs
where
  firstDayMatch : List String → Bool
    | [] => false
    | h :: t =>
        if h ≠ "" ∧ prefixMatch day.toList h.toList then
          !(strContains h "Closed")
        else firstDayMatch t

/-- The diaspora-cuisine closed set of `/api/restaurants` (line 310). -/
def API_DIASPORA_CUISINES : List String :=
  ["Congolese", "African", "Moroccan", "Turkish", "Lebanese", "Ethiopian",
   "Middle Eastern"]

/-- One conditional filter block of `/api/restaurants`
(`if <param>: df = df[mask]`). -/
def filterWhen (b : Bool) (p : AppRecord → Bool) (df : List AppRecord) :
    List AppRecord :=
  if b then df.filter p else df

/-- The `brussels_gems` block (lines 313–315): keep the top 100 by
`brussels_score`. -/
def gemsStage (b : Bool) (df : List AppRecord) : List AppRecord :=
  if b then (sortDescBy (·.brussels_score) df).take 100 else df

/-- The guide-recognition filter block (lines 323–336). -/
def guideStage (guide : Option String) (df : List AppRecord) :
    List AppRecord :=
  if strTruthy guide then
    match guide.getD "" with
    | "michelin" => df.filter (fun r => 0 < r.michelin_stars)
    | "bib" => df.filter (fun r => r.bib_gourmand)
    | "gaultmillau" => df.filter (fun r => r.gault_millau)
    | "reddit" => df.filter (fun r => 2 ≤ r.reddit_mentions)
    | "afsca" => df.filter (fun r => r.has_afsca_smiley)
    | "any_guide" => df.filter (fun r =>
        0 < r.michelin_stars ∨ r.bib_gourmand ∨ r.gault_millau)
    | _ => df
  else df

/-- The final sort block (lines 351–357). -/
def sortStage (sort_by : String) (df : List AppRecord) : List AppRecord :=
  if sort_by = "brussels_score" then sortDescBy (·.brussels_score) df
  else if sort_by = "rating" then sortDescBy (·.rating) df
  else if sort_by = "residual" then sortDescBy (·.residual) df
  else df

/-- `/api/restaurants` (`app.py`, lines 263–394): the filter pipeline and
final sort, one stage per source block, in source order.  Serialization
(column selection, NaN cleanup) does not change the record count and is not
modelled. -/
def apiRestaurants (q : RestaurantQuery) (corpus : List AppRecord) :
    List AppRecord :=
  sortStage q.sort_by <|
  filterWhen (strTruthy q.open_day)
    (fun r => isOpenOnDay r.opening_hours (q.open_day.getD "")) <|
  guideStage q.guide <|
  filterWhen q.price_level.isSome
    (fun r => r.price_numeric = q.price_level.getD 0) <|
  filterWhen (strLower q.search ≠ "")
    (fun r => subMatch (strLower q.search).toList (lowerList r.name.toList)) <|
  gemsStage q.brussels_gems <|
  filterWhen q.diaspora_only
    (fun r => API_DIASPORA_CUISINES.contains r.cuisine) <|
  filterWhen (strTruthy q.venue_type ∧ q.venue_type ≠ some "all")
    (fun r => r.venue_type = q.venue_type.getD "") <|
  filterWhen (strTruthy q.tier ∧ q.tier ≠ some "all")
    (fun r => r.tier = q.tier.getD "") <|
  filterWhen (strTruthy q.commune ∧ q.commune ≠ some "all")
    (fun r => r.commune = q.commune.getD "") <|
  filterWhen (natTruthy q.min_reviews)
    (fun r => q.min_reviews.getD 0 ≤ r.review_count) <|
  filterWhen (strTruthy q.cuisine ∧ q.cuisine ≠ some "all")
    (fun r => r.cuisine = q.cuisine.getD "") <|
  filterWhen (qTruthy q.max_rating)
    (fun r => r.rating ≤ q.max_rating.getD 0) <|
  filterWhen (qTruthy q.min_rating)
    (fun r => q.min_rating.getD 0 ≤ r.rating) corpus

/-- `/api/gems` (`app.py`, lines 449–466):
`limit = min(request.args.get("limit", 50, type=int), 500)` followed by
`df.nlargest(limit, "residual")`. -/
def apiGems (q_limit : Option ℕ) (corpus : List AppRecord) : List AppRecord :=
  let limit := min (q_limit.getD 50) 500
  (sortDescBy (·.residual) corpus).take limit

/-! ## Specification-side companion definitions

These follow the spec's wording of two lookups, to be compared with the
embedded source functions. -/

/-- The exact-normalized mention lookup the spec describes for
`reddit_community`: lowercase-and-trim the name and look it up exactly in
the mentions table (0 when absent). -/
def redditLookup (mentions : List (String × ℕ)) (name : String) : ℕ :=
  (alookup mentions (String.mk (trimList (lowerList name.toList)))).getD 0

/-- The base-score step table of the spec for `reddit_community`
(`{1→0.2, 2→0.4, 3–4→0.6, 5–9→0.8, 10+→1.0}`). -/
def redditBaseScore (c : ℕ) : ℚ :=
  if 10 ≤ c then 1.0
  else if 5 ≤ c then 0.8
  else if 3 ≤ c then 0.6
  else if 2 ≤ c then 0.4
  else 0.2

/-- The size multiplier of the spec for `reddit_community` (1.2 below 200
reviews, 0.7 above 2000, else 1.0; a missing/zero review count takes the
final branch because of Python truthiness). -/
def redditSizeMultiplier (n : ℕ) : ℚ :=
  if n ≠ 0 ∧ n < 200 then 1.2
  else if n ≠ 0 ∧ 2000 < n then 0.7
  else 1.0

section SpecSide

open Classical

/-- The spec's description of neighborhood lookup: the first entry of the
neighborhood table, in declaration order, whose center lies strictly within
its radius (the entry's override, or the 0.5 km default). -/
noncomputable def neighborhoodFirstMatch (lat lng : ℝ) :
    Option (String × NeighborhoodData) :=
  NEIGHBORHOODS.find? (fun e =>
    decide (haversine_distance lat lng e.2.lat e.2.lng < e.2.radius.getD 0.5))

end SpecSide

/-! # Theorems -/

/-! ## Helper lemmas -/

/-- Insertion preserves length. -/
lemma length_insertDescBy (key : AppRecord → ℚ) (x : AppRecord)
    (l : List AppRecord) :
    (insertDescBy key x l).length = l.length + 1 := by
  induction l with
  | nil => rfl
  | cons y ys ih =>
      simp only [insertDescBy]
      split
      · simp
      · simp [ih]

/-- The descending sort preserves length. -/
lemma length_sortDescBy (key : AppRecord → ℚ) (l : List AppRecord) :
    (sortDescBy key l).length = l.length := by
  induction l with
  | nil => rfl
  | cons x xs ih =>
      simp only [sortDescBy, List.foldr] at *
      rw [length_insertDescBy, ih, List.length_cons]

/-- A conditional filter block never adds records. -/
lemma length_filterWhen (b : Bool) (p : AppRecord → Bool)
    (df : List AppRecord) :
    (filterWhen b p df).length ≤ df.length := by
  unfold filterWhen
  split
  · exact df.length_filter_le p
  · exact le_refl _

/-- The top-100 gems block never adds records. -/
lemma length_gemsStage (b : Bool) (df : List AppRecord) :
    (gemsStage b df).length ≤ df.length := by
  unfold gemsStage
  split
  · calc ((sortDescBy (·.brussels_score) df).take 100).length
        ≤ (sortDescBy (·.brussels_score) df).length := by
          rw [List.length_take]
          exact min_le_right _ _
      _ = df.length := length_sortDescBy _ _
  · exact le_refl _

/-- The guide filter block never adds records. -/
lemma length_guideStage (g : Option String) (df : List AppRecord) :
    (guideStage g df).length ≤ df.length := by
  unfold guideStage
  split
  · split <;> first
      | exact df.length_filter_le _
      | exact le_refl _
  · exact le_refl _

/-- The final sort preserves length. -/
lemma length_sortStage (s : String) (df : List AppRecord) :
    (sortStage s df).length = df.length := by
  unfold sortStage
  split_ifs <;> first
    | exact length_sortDescBy _ _
    | rfl

/-! ## C6 — weight normalization -/

/-- C6: the positive-component weight table (base_quality 0.32, ml_residual
0.18, scarcity 0.12, independent 0.10, guide 0.08, diaspora 0.07, reddit
0.05, bruxellois 0.04, family_name 0.02, specificity 0.01, cuisine_rarity
0.01) sums to exactly 1.0. -/
theorem positive_weights_sum_to_one : positiveWeightSum POSITIVE_WEIGHTS = 1 := by
  norm_num [positiveWeightSum, POSITIVE_WEIGHTS]

/-! ## C9 — rating gate of the review-count scarcity sub-component -/

/-- C9: for every record whose rating is missing (0, the `get` default) or
strictly below 4.0, the review-count scarcity sub-component is 0 regardless
of review count: the Goldilocks review-count table is gated on
`rating >= 4.0`. -/
theorem review_scarcity_rating_gate (rating : ℚ) (review_count : ℕ)
    (h : rating < 4) : reviewScarcity rating review_count = 0 := by
  unfold reviewScarcity
  rw [if_neg]
  rintro ⟨-, -, hge⟩
  have h40 : (4.0 : ℚ) = 4 := by norm_num
  rw [h40] at hge
  linarith

/-- Witness for C9 at a concrete record: rating 3.9 with 100 reviews. -/
theorem review_scarcity_rating_gate_witness : reviewScarcity 3.9 100 = 0 :=
  review_scarcity_rating_gate 3.9 100 (by norm_num)

/-! ## C4 — the review-count scarcity table -/

/-- C4 counterexample: the claim says the sub-component is 0 on (500, 1000],
but the source assigns 0.3 there (line 807–808); at rating 4.5 and 600
reviews the value is 0.3 ≠ 0. -/
theorem review_scarcity_600_counterexample :
    reviewScarcity 4.5 600 = 0.3 ∧ (0.3 : ℚ) ≠ 0 := by
  constructor
  · norm_num [reviewScarcity]
  · norm_num

/-- C4 as amended: for rating ≥ 4 the sub-component equals 1.0 on [50,200],
0.7 on (200,500], the ramp 0.3 + 0.6·((n−35)/15) on [35,49] (0.3 at 35,
0.86 at 49), 0 on [20,34], **0.3** on (500,1000], and 0 for all other
review counts. -/
theorem review_scarcity_table (rating : ℚ) (n : ℕ) (hr : 4 ≤ rating) :
    (50 ≤ n ∧ n ≤ 200 → reviewScarcity rating n = 1) ∧
    (200 < n ∧ n ≤ 500 → reviewScarcity rating n = 0.7) ∧
    (35 ≤ n ∧ n ≤ 49 → reviewScarcity rating n = 0.3 + 0.6 * (((n : ℚ) - 35) / 15)) ∧
    (20 ≤ n ∧ n ≤ 34 → reviewScarcity rating n = 0) ∧
    (500 < n ∧ n ≤ 1000 → reviewScarcity rating n = 0.3) ∧
    (n < 20 ∨ 1000 < n → reviewScarcity rating n = 0) := by
  have h40 : (4.0 : ℚ) ≤ rating := by
    have : (4.0 : ℚ) = 4 := by norm_num
    rw [this]; exact hr
  have hr0 : rating ≠ 0 := by
    intro h0
    rw [h0] at hr
    norm_num at hr
  refine ⟨?_, ?_, ?_, ?_, ?_, ?_⟩
  · rintro ⟨h1, h2⟩
    unfold reviewScarcity
    rw [if_pos ⟨hr0, by omega, h40⟩, if_pos ⟨h1, h2⟩]
    norm_num
  · rintro ⟨h1, h2⟩
    unfold reviewScarcity
    rw [if_pos ⟨hr0, by omega, h40⟩, if_neg (by omega), if_pos ⟨h1, h2⟩]
  · rintro ⟨h1, h2⟩
    unfold reviewScarcity
    rw [if_pos ⟨hr0, by omega, h40⟩, if_neg (by omega), if_neg (by omega),
      if_pos ⟨h1, by omega⟩]
  · rintro ⟨h1, h2⟩
    unfold reviewScarcity
    rw [if_pos ⟨hr0, by omega, h40⟩, if_neg (by omega), if_neg (by omega),
      if_neg (by omega), if_pos ⟨h1, by omega⟩]
    norm_num
  · rintro ⟨h1, h2⟩
    unfold reviewScarcity
    rw [if_pos ⟨hr0, by omega, h40⟩, if_neg (by omega), if_neg (by omega),
      if_neg (by omega), if_neg (by omega), if_pos ⟨h1, h2⟩]
  · intro h1
    rcases Nat.eq_zero_or_pos n with h0 | h0
    · unfold reviewScarcity
      rw [if_neg]
      rintro ⟨-, hn0, -⟩
      exact hn0 h0
    · unfold reviewScarcity
      rw [if_pos ⟨hr0, by omega, h40⟩, if_neg (by omega), if_neg (by omega),
        if_neg (by omega), if_neg (by omega), if_neg (by omega)]

/-- Witness for the amended C4 table at concrete inputs: rating 4.5, 100
reviews sits in the Goldilocks plateau. -/
theorem review_scarcity_table_witness : reviewScarcity 4.5 100 = 1 :=
  (review_scarcity_table 4.5 100 (by norm_num)).1 ⟨by norm_num, by norm_num⟩

/-! ## C3 — the chain re-check overwrites the stored flag -/

/-- C3 counterexample: a record named "wok away" stored with
`is_chain = True` (the `features.py` pattern list contains `wok`, so the
real pipeline produces such rows) is **declassified** by the re-check,
because `brussels_context.CHAIN_PATTERNS` has no matching pattern: the
post-rerank chain set is not a superset of the pre-rerank one. -/
theorem chain_recheck_counterexample :
    (RerankRow.mk "wok away" true).is_chain = true ∧
    rerankChainRecheck [RerankRow.mk "wok away" true] =
      [RerankRow.mk "wok away" false] := by
  exact ⟨rfl, by decide⟩

/-- C3 as amended: after the re-check a record is flagged `is_chain` exactly
when its name matches `CHAIN_PATTERNS`; the stored flag is overwritten
(so the chain set can both grow and shrink). -/
theorem chain_recheck_overwrites (rows : List RerankRow) (r : RerankRow)
    (hr : r ∈ rerankChainRecheck rows) :
    r.is_chain = is_chain_restaurant r.name := by
  simp only [rerankChainRecheck, List.mem_map] at hr
  obtain ⟨s, -, rfl⟩ := hr
  rfl

/-- Witness for the amended C3 at a concrete corpus: a record named
"mcdonald bourse" comes out of the re-check flagged as a chain. -/
theorem chain_recheck_overwrites_witness :
    (RerankRow.mk "mcdonald bourse" true).is_chain =
      is_chain_restaurant "mcdonald bourse" :=
  chain_recheck_overwrites [RerankRow.mk "mcdonald bourse" false]
    (RerankRow.mk "mcdonald bourse" true) (by decide)

/-! ## C8 — pagination limits of the query surface -/

/-- C8 counterexample: `/api/restaurants` has no `limit` parameter at all —
with default query parameters it returns every record of the corpus, so a
corpus of 501 records yields a 501-record response, above the claimed hard
ceiling of 500. -/
theorem api_restaurants_no_limit_counterexample :
    500 < (apiRestaurants {} (List.replicate 501 ({} : AppRecord))).length := by
  have h : (apiRestaurants {} (List.replicate 501 ({} : AppRecord))).length
      = 501 := by
    unfold apiRestaurants
    simp only [filterWhen, gemsStage, guideStage, qTruthy, natTruthy,
      strTruthy, strLower, lowerList, trimList]
    norm_num [sortStage, length_sortDescBy, List.length_replicate]
  rw [h]
  norm_num

/-- C8 as amended: `/api/gems` (and its Brussels-score sibling) bounds its
response by `min(limit, 500)` — never more than 500 records — while
`/api/restaurants` returns every record passing its filters, bounded only
by the corpus size. -/
theorem api_limits (q_limit : Option ℕ) (q : RestaurantQuery)
    (corpus : List AppRecord) :
    (apiGems q_limit corpus).length ≤ min (q_limit.getD 50) 500 ∧
    (apiGems q_limit corpus).length ≤ 500 ∧
    (apiRestaurants q corpus).length ≤ corpus.length := by
  have hg : (apiGems q_limit corpus).length ≤ min (q_limit.getD 50) 500 := by
    unfold apiGems
    rw [List.length_take]
    exact min_le_left _ _
  refine ⟨hg, le_trans hg (min_le_right _ _), ?_⟩
  unfold apiRestaurants
  rw [length_sortStage]
  exact (length_filterWhen _ _ _).trans <|
    (length_guideStage _ _).trans <|
    (length_filterWhen _ _ _).trans <|
    (length_filterWhen _ _ _).trans <|
    (length_gemsStage _ _).trans <|
    (length_filterWhen _ _ _).trans <|
    (length_filterWhen _ _ _).trans <|
    (length_filterWhen _ _ _).trans <|
    (length_filterWhen _ _ _).trans <|
    (length_filterWhen _ _ _).trans <|
    (length_filterWhen _ _ _).trans <|
    (length_filterWhen _ _ _).trans <|
    (length_filterWhen _ _ _)

/-! ## C7 — the reddit_community contribution -/

/-- C7 counterexample: the claimed formula `weight × base_score ×
size_multiplier` misses the `min(1.0, ·)` cap of the source (line 227).  A
name with 10 exact-normalized mentions and 50 reviews has base_score 1.0
and size_multiplier 1.2, but the returned score is the capped 1.0, so the
contribution is `weight × 1.0`, not `weight × 1.0 × 1.2`. -/
theorem reddit_cap_counterexample :
    (reddit_community_score [("gem", 10)] "Gem" 50).1 = 1 ∧
    POSITIVE_WEIGHTS.reddit * (reddit_community_score [("gem", 10)] "Gem" 50).1 ≠
      POSITIVE_WEIGHTS.reddit * (1.0 * 1.2) := by
  have h : (alookup [("gem", 10)]
      (String.mk (trimList (lowerList ['G', 'e', 'm'])))).getD 0 = 10 := by
    decide
  have h1 : (reddit_community_score [("gem", 10)] "Gem" 50).1 = 1 := by
    simp only [reddit_community_score]
    norm_num [h]
    simp
  refine ⟨h1, ?_⟩
  rw [h1]
  norm_num [POSITIVE_WEIGHTS]

/-- C7 as amended: for a nonempty name and a nonempty mentions table, the
returned pair is `(min(1, base_score(c) × size_multiplier(n)), c)` when the
exact lowercase-trimmed lookup yields `c ≥ 1` mentions, and `(0, 0)` when
it yields none — the product is capped at 1, the size multiplier falls back
to 1.0 for a zero review count, and only exact-normalized matches count. -/
theorem reddit_score_characterization (mentions : List (String × ℕ))
    (name : String) (n : ℕ) (hname : name ≠ "") (hm : mentions ≠ []) :
    reddit_community_score mentions name n =
      (if redditLookup mentions name = 0 then 0
       else min 1.0 (redditBaseScore (redditLookup mentions name) *
          redditSizeMultiplier n),
       redditLookup mentions name) := by
  unfold reddit_community_score redditLookup redditBaseScore
    redditSizeMultiplier
  rw [if_neg (by push_neg; exact ⟨hname, hm⟩)]
  dsimp only
  by_cases h0 :
    (alookup mentions (String.mk (trimList (lowerList name.toList)))).getD 0 = 0
  · rw [if_pos h0, if_pos h0, h0]
  · rw [if_neg h0, if_neg h0]

/-- Witness for the amended C7 at concrete inputs: 3 mentions of an
exactly-matching normalized name, 1000 reviews (neutral size multiplier). -/
theorem reddit_score_characterization_witness :
    reddit_community_score [("chez x", 3)] " Chez X " 1000 = (0.6, 3) := by
  rw [reddit_score_characterization [("chez x", 3)] " Chez X " 1000
    (by decide) (by decide)]
  have hl : redditLookup [("chez x", 3)] " Chez X " = 3 := by decide
  rw [hl]
  norm_num [redditBaseScore, redditSizeMultiplier]

/-! ## C2 — confidence monotonicity of base_quality and ml_residual -/

/-- The confidence weight is nonnegative. -/
lemma confidence_weight_nonneg (n : ℕ) : 0 ≤ confidence_weight n 10 50 := by
  unfold confidence_weight
  split_ifs with h
  · positivity
  · have hn : (0 : ℝ) ≤ (n : ℝ) / ((50 : ℕ) : ℝ) := by positivity
    have h1 : (1 : ℝ) ≤ 1 + (n : ℝ) / ((50 : ℕ) : ℝ) := by linarith
    have h2 := Real.sqrt_le_sqrt h1
    rw [Real.sqrt_one] at h2
    have hpos : (0 : ℝ) < Real.sqrt (1 + (n : ℝ) / ((50 : ℕ) : ℝ)) :=
      lt_of_lt_of_le zero_lt_one h2
    have h3 : 1 / Real.sqrt (1 + (n : ℝ) / ((50 : ℕ) : ℝ)) ≤ 1 := by
      rw [div_le_one hpos]
      exact h2
    linarith

/-- On each side of the 10-review boundary, the confidence weight is
non-decreasing in the review count. -/
lemma confidence_weight_mono (m n : ℕ) (hmn : m ≤ n)
    (hb : n < 10 ∨ 10 ≤ m) :
    confidence_weight m 10 50 ≤ confidence_weight n 10 50 := by
  unfold confidence_weight
  have hc : (m : ℝ) ≤ (n : ℝ) := by exact_mod_cast hmn
  rcases hb with hb | hb
  · rw [if_pos (by omega), if_pos (by omega)]
    have h10 : ((10 : ℕ) : ℝ) = 10 := by norm_num
    rw [h10]
    linarith
  · rw [if_neg (by omega), if_neg (by omega)]
    have h50 : ((50 : ℕ) : ℝ) = 50 := by norm_num
    rw [h50]
    have h1 : (0 : ℝ) < Real.sqrt (1 + (m : ℝ) / 50) :=
      Real.sqrt_pos.mpr (by positivity)
    have h2 : Real.sqrt (1 + (m : ℝ) / 50) ≤ Real.sqrt (1 + (n : ℝ) / 50) :=
      Real.sqrt_le_sqrt (by linarith)
    have h3 : 1 / Real.sqrt (1 + (n : ℝ) / 50) ≤
        1 / Real.sqrt (1 + (m : ℝ) / 50) :=
      one_div_le_one_div_of_le h1 h2
    linarith

/-- C2 counterexample: at a fixed rating of 5.0, the `base_quality`
component **decreases** from 9 to 10 reviews — `confidence_weight` jumps
from `0.3·(9/10) = 0.27` down to `1 − 1/√1.2 ≈ 0.087` when the linear
low-sample branch hands over to the Bayesian branch — so the component is
not non-decreasing in review count. -/
theorem base_quality_not_monotone :
    baseQualityComponent 5 10 < baseQualityComponent 5 9 := by
  have e9 : confidence_weight 9 10 50 = 0.27 := by
    unfold confidence_weight
    rw [if_pos (by omega)]
    norm_num
  have e10 : confidence_weight 10 10 50 < 0.27 := by
    unfold confidence_weight
    rw [if_neg (by omega)]
    have harg : (1 : ℝ) + ((10 : ℕ) : ℝ) / ((50 : ℕ) : ℝ) = 1.2 := by norm_num
    rw [harg]
    have hlt : Real.sqrt 1.2 < 1.3 :=
      (Real.sqrt_lt' (by norm_num : (0 : ℝ) < 1.3)).mpr (by norm_num)
    have hpos : (0 : ℝ) < Real.sqrt 1.2 := Real.sqrt_pos.mpr (by norm_num)
    have hge : 1 / (1.3 : ℝ) < 1 / Real.sqrt 1.2 :=
      one_div_lt_one_div_of_lt hpos hlt
    have hb : (0.73 : ℝ) < 1 / Real.sqrt 1.2 := by linarith
    linarith
  unfold baseQualityComponent
  rw [e9]
  have hq : ((POSITIVE_WEIGHTS.base_quality *
      (if (5 : ℚ) ≠ 0 then 5 / 5.0 else 0) : ℚ) : ℝ) = 0.32 := by
    norm_num [POSITIVE_WEIGHTS]
  rw [hq]
  nlinarith [e10]

/-- C2 as amended: holding the rating (and the residual) fixed, the
`base_quality` component — and, for a non-negative residual, the
`ml_residual` component — is non-decreasing in review count **within each
confidence branch** (both counts below 10, or both at least 10); at the
9→10 boundary the confidence weight, and with it `base_quality`, strictly
drops (see the counterexample), and a negative residual reverses the
direction of `ml_residual`. -/
theorem base_quality_ml_residual_monotone (rating residual : ℚ) (m n : ℕ)
    (hmn : m ≤ n) (hb : n < 10 ∨ 10 ≤ m) (hr : 0 ≤ rating)
    (hres : 0 ≤ residual) :
    baseQualityComponent rating m ≤ baseQualityComponent rating n ∧
    mlResidualComponent residual m ≤ mlResidualComponent residual n := by
  have hconf := confidence_weight_mono m n hmn hb
  constructor
  · unfold baseQualityComponent
    apply mul_le_mul_of_nonneg_left (by linarith)
    have h0 : (0 : ℚ) ≤ POSITIVE_WEIGHTS.base_quality *
        (if rating ≠ 0 then rating / 5.0 else 0) := by
      apply mul_nonneg
      · norm_num [POSITIVE_WEIGHTS]
      · split_ifs
        · exact div_nonneg hr (by norm_num)
        · exact le_refl 0
    exact_mod_cast h0
  · unfold mlResidualComponent
    apply mul_le_mul_of_nonneg_left hconf
    have h2r : (0 : ℚ) ≤ residual * 2 := by linarith
    have hmax : (0 : ℚ) ≤ max (-1.0) (residual * 2) :=
      le_trans h2r (le_max_right _ _)
    have hmin : (0 : ℚ) ≤ min 1.0 (max (-1.0) (residual * 2)) :=
      le_min (by norm_num) hmax
    have h0 : (0 : ℚ) ≤ POSITIVE_WEIGHTS.ml_residual *
        min 1.0 (max (-1.0) (residual * 2)) := by
      apply mul_nonneg _ hmin
      norm_num [POSITIVE_WEIGHTS]
    exact_mod_cast h0

/-- Witness for the amended C2 at concrete inputs: rating 4, residual 0.1,
review counts 10 ≤ 20 (both in the Bayesian branch). -/
theorem base_quality_ml_residual_monotone_witness :
    baseQualityComponent 4 10 ≤ baseQualityComponent 4 20 ∧
    mlResidualComponent (1 / 10) 10 ≤ mlResidualComponent (1 / 10) 20 :=
  base_quality_ml_residual_monotone 4 (1 / 10) 10 20 (by norm_num)
    (Or.inr (by norm_num)) (by norm_num) (by norm_num)

/-! ## C5 — the tourist-trap score table -/

/-- The Haversine distance from a point to itself is zero. -/
lemma haversine_self (lat lng : ℝ) : haversine_distance lat lng lat lng = 0 := by
  unfold haversine_distance radiansR atan2R
  norm_num [Real.sin_zero, Real.sqrt_zero, Real.sqrt_one, Real.arctan_zero]

/-- The Grand Place itself is in the tourist zone (its distance to the
epicenter is 0 < 150 m). -/
lemma inTouristZone_GP : inTouristZone 50.8467 4.3525 := by
  right; right
  unfold distance_to_grand_place GRAND_PLACE
  rw [haversine_self]
  norm_num

/-- C5 counterexample: at the Grand Place with rating 3.0 and 2000 reviews
the raw tourist-trap score is `min(1, 0.4 + 0.3·(4.3 − 3.0)) = 0.79`,
outside the claimed range [0.4, 0.7]: the rating-deficit scaling is only
capped at 1.0, not at 0.7. -/
theorem tourist_trap_above_07 :
    tourist_trap_score 50.8467 4.3525 3 2000 none = 0.79 ∧
    (0.7 : ℚ) < 0.79 := by
  constructor
  · unfold tourist_trap_score
    rw [if_pos inTouristZone_GP,
      if_pos (⟨by norm_num, by norm_num⟩ : 1500 < 2000 ∧ (3 : ℚ) < 4.3)]
    norm_num [min_def]
  · norm_num

/-- C5 as amended: inside the tourist zone the raw score equals
`min(1, 0.4 + 0.3·(4.3 − rating))` — a value in [0.4, **1.0**] — when
review_count > 1500 and rating < 4.3; 0.15 when review_count > 1500 and
rating ≥ 4.3; 0.2 when rating < 4.3 and the distance to the epicenter is
under 100 m; and 0 otherwise; outside the zone it is 0. -/
theorem tourist_trap_table (lat lng : ℝ) (rating : ℚ) (n : ℕ)
    (rl : Option (List (String × ℕ))) :
    (¬ inTouristZone lat lng → tourist_trap_score lat lng rating n rl = 0) ∧
    (inTouristZone lat lng → 1500 < n → rating < 4.3 →
      tourist_trap_score lat lng rating n rl =
        min 1.0 (0.4 + 0.3 * (4.3 - rating)) ∧
      0.4 ≤ tourist_trap_score lat lng rating n rl ∧
      tourist_trap_score lat lng rating n rl ≤ 1) ∧
    (inTouristZone lat lng → 1500 < n → 4.3 ≤ rating →
      tourist_trap_score lat lng rating n rl = 0.15) ∧
    (inTouristZone lat lng → n ≤ 1500 → rating < 4.3 →
      distance_to_grand_place lat lng < 0.1 →
      tourist_trap_score lat lng rating n rl = 0.2) ∧
    (inTouristZone lat lng → n ≤ 1500 → rating < 4.3 →
      0.1 ≤ distance_to_grand_place lat lng →
      tourist_trap_score lat lng rating n rl = 0) ∧
    (inTouristZone lat lng → n ≤ 1500 → 4.3 ≤ rating →
      tourist_trap_score lat lng rating n rl = 0) := by
  refine ⟨?_, ?_, ?_, ?_, ?_, ?_⟩
  · intro hz
    unfold tourist_trap_score
    rw [if_neg hz]
  · intro hz hn hr
    have hval : tourist_trap_score lat lng rating n rl =
        min 1.0 (0.4 + 0.3 * (4.3 - rating)) := by
      unfold tourist_trap_score
      rw [if_pos hz, if_pos ⟨hn, hr⟩]
    refine ⟨hval, ?_, ?_⟩
    · rw [hval]
      apply le_min (by norm_num)
      nlinarith
    · rw [hval]
      exact le_trans (min_le_left _ _) (by norm_num)
  · intro hz hn hr
    unfold tourist_trap_score
    rw [if_pos hz, if_neg (by rintro ⟨-, h⟩; linarith), if_pos hn]
  · intro hz hn hr hd
    unfold tourist_trap_score
    rw [if_pos hz, if_neg (by rintro ⟨h, -⟩; omega),
      if_neg (by intro h; omega), if_pos ⟨hr, hd⟩]
  · intro hz hn hr hd
    unfold tourist_trap_score
    rw [if_pos hz, if_neg (by rintro ⟨h, -⟩; omega),
      if_neg (by intro h; omega), if_neg (by rintro ⟨-, h⟩; linarith)]
  · intro hz hn hr
    unfold tourist_trap_score
    rw [if_pos hz, if_neg (by rintro ⟨h, -⟩; omega),
      if_neg (by intro h; omega), if_neg (by rintro ⟨h, -⟩; linarith)]

/-- Witness for the amended C5 at concrete inputs: a high-volume,
well-rated record at the Grand Place gets the mild 0.15. -/
theorem tourist_trap_table_witness :
    tourist_trap_score 50.8467 4.3525 4.6 2000 none = 0.15 :=
  (tourist_trap_table 50.8467 4.3525 4.6 2000 none).2.2.1 inTouristZone_GP
    (by norm_num) (by norm_num)

/-! ## C10 — neighborhood lookup on overlapping neighborhoods -/

/-- C10: neighborhood lookup is the first-match scan of the neighborhood
table — for every point (in particular one inside the radius of several
neighborhoods, such as the overlapping Matongé/Saint-Boniface/Flagey
circles) it deterministically returns the single first entry in declaration
order whose circle (radius override, or the 0.5 km default) contains the
point, never more than one, and it is total: it returns `some` entry
exactly when at least one circle contains the point, and `none` otherwise. -/
theorem get_neighborhood_first_match (lat lng : ℝ) :
    get_neighborhood lat lng = neighborhoodFirstMatch lat lng ∧
    ((get_neighborhood lat lng).isSome ↔ ∃ e ∈ NEIGHBORHOODS,
      haversine_distance lat lng e.2.lat e.2.lng < e.2.radius.getD 0.5) := by
  have aux : ∀ l : List (String × NeighborhoodData),
      getNeighborhoodAux lat lng l = l.find? (fun e =>
        decide (haversine_distance lat lng e.2.lat e.2.lng <
          e.2.radius.getD 0.5)) := by
    intro l
    induction l with
    | nil => rfl
    | cons e t ih =>
        by_cases h :
          haversine_distance lat lng e.2.lat e.2.lng < e.2.radius.getD 0.5
        · simp [getNeighborhoodAux, List.find?, h, ih]
        · simp [getNeighborhoodAux, List.find?, h, ih]
  have heq : get_neighborhood lat lng = neighborhoodFirstMatch lat lng := by
    unfold get_neighborhood neighborhoodFirstMatch
    exact aux NEIGHBORHOODS
  refine ⟨heq, ?_⟩
  rw [heq]
  unfold neighborhoodFirstMatch
  rw [List.find?_isSome]
  simp only [decide_eq_true_eq]

/-! ## C1 — the composite score is clamped to [0, 1] -/

/-- C1: for every restaurant record, mentions table, hygiene lookup and
corpus statistics, the composite `brussels_score` produced by
`calculate_brussels_score` lies in [0, 1] (the summed components are
clamped by `max(0.0, min(1.0, total))`). -/
theorem brussels_score_in_unit_interval (r : Restaurant)
    (rm : List (String × ℕ)) (af : String → String → ℚ)
    (crt : List (String × ℕ)) (ccc : List (String × List (String × ℕ))) :
    0 ≤ (calculate_brussels_score r rm af crt ccc).brussels_score ∧
    (calculate_brussels_score r rm af crt ccc).brussels_score ≤ 1 := by
  unfold calculate_brussels_score
  dsimp only
  constructor
  · exact le_max_of_le_left (by norm_num)
  · exact max_le (by norm_num) (le_trans (min_le_left _ _) (by norm_num))
